import Mathlib

/-!
# NBA-Analyzer: shallow embedding and verification

This file embeds the core of the NBA-Analyzer repository in Lean 4:

* the hybrid retrieval engine (`src/lib/pinecone.ts`, appearing in the
  source tree as `src/unnamed/part_002`): `storeCard`, `hybridSearch`,
  `getAllCards`, `deleteCard`;
* the LangGraph processing pipeline (`src/lib/agent/graph.ts` and the
  tools under `src/lib/agent/tools/`): `getCardInfo`, `validateNBACard`,
  `certifyCard`, `describeCard`, `generateEmbeddings`, `saveToDatabase`,
  together with the `routeNext`-driven driver;
* the durable image store (`src/lib/storage.ts`): `saveCardImage`.

External services (Gemini extraction and text generation, Tavily lookup,
the embedding models, the filesystem write, and the Pinecone client) are
modelled as explicit capability parameters whose input/output contract is
the one given in the repository: each fallible call is an
`Except String` value standing for the promise that either resolves or
rejects with an error message.  The two Pinecone indexes are modelled as
association lists of (id, vector, metadata) entries with Pinecone's
upsert/query/delete semantics: `upsert` overwrites by id, `query` returns
the `topK` best-scoring entries (under an abstract similarity function
`sim`, since scoring happens inside the external service) sorted in
descending score order, and `deleteOne` removes by id.

JavaScript value quirks are preserved: `x || default` treats `0`, `""`
and `undefined` as absent (`jsOrNat`, `jsOrRat`, `jsOrStr`), truthiness
tests on optional strings/numbers treat `""` and `0` as missing
(`truthyStr`, `truthyRat`), and `Array.prototype.sort` is stable
(modelled with a stable insertion sort).  JavaScript numbers are modelled
as `ℚ`.
-/

/-- JS `x || d` for an optional `number`: `0` and `undefined` are falsy. -/
def jsOrNat : Option Nat → Nat → Nat
  | some n, d => if n = 0 then d else n
  | none, d => d

/-- JS `x || d` for an optional `number`, rational-valued. -/
def jsOrRat : Option ℚ → ℚ → ℚ
  | some q, d => if q = 0 then d else q
  | none, d => d

/-- JS `x || d` for an optional `string`: `""` and `undefined` are falsy. -/
def jsOrStr : Option String → String → String
  | some s, d => if s = "" then d else s
  | none, d => d

/-- JS truthiness of an optional string (`undefined` and `""` are falsy). -/
def truthyStr : Option String → Bool
  | some s => s ≠ ""
  | none => false

/-- JS truthiness of an optional number (`undefined` and `0` are falsy). -/
def truthyRat : Option ℚ → Bool
  | some q => q ≠ 0
  | none => false

/-- `src/types/types.ts` `PSACard`. -/
structure PSACard where
  player_name : String
  year : String
  brand : String
  psa_grade : ℚ
  cert_number : String
  set_name : Option String
  card_number : Option String
deriving Repr, DecidableEq

/-- The metadata record written into both Pinecone indexes by `storeCard`
(`part_002`, lines 227-237). -/
structure CardMetadata where
  player_name : String
  year : String
  brand : String
  psa_grade : ℚ
  cert_number : String
  set_name : String
  card_number : String
  image_path : String
  created_at : String
deriving Repr, DecidableEq

/-- One stored vector of a Pinecone index: id, values, metadata. -/
structure IndexEntry where
  id : String
  values : List ℚ
  metadata : CardMetadata
deriving Repr, DecidableEq

/-- A Pinecone index, modelled as the list of its entries. -/
abbrev VecIndex := List IndexEntry

/-- Pinecone `upsert`: overwrite the entry with the same id, else append. -/
def upsertEntry (idx : VecIndex) (e : IndexEntry) : VecIndex :=
  if idx.any (fun x => x.id = e.id) then
    idx.map (fun x => if x.id = e.id then e else x)
  else idx ++ [e]

/-- Pinecone `deleteOne`: drop the entry with the given id. -/
def deleteEntry (idx : VecIndex) (id : String) : VecIndex :=
  idx.filter (fun x => x.id ≠ id)

/-- A Pinecone query match: id, score, optional metadata. -/
structure QueryMatch where
  id : String
  score : Option ℚ
  metadata : Option CardMetadata
deriving Repr, DecidableEq

/-- The metadata filter built by `hybridSearch` (`part_002`, lines 283-304):
equality constraints plus a `$gte`/`$lte` range on `psa_grade`. -/
structure MetadataFilter where
  player_name : Option String
  year : Option String
  brand : Option String
  min_grade : Option ℚ
  max_grade : Option ℚ
deriving Repr, DecidableEq

/-- Whether a metadata record passes the (conjunctive) filter. -/
def filterAccept : Option MetadataFilter → CardMetadata → Bool
  | none, _ => true
  | some f, m =>
    (match f.player_name with | some p => m.player_name = p | none => true) &&
    (match f.year with | some y => m.year = y | none => true) &&
    (match f.brand with | some b => m.brand = b | none => true) &&
    (match f.min_grade with | some g => decide (g ≤ m.psa_grade) | none => true) &&
    (match f.max_grade with | some g => decide (m.psa_grade ≤ g) | none => true)

/-- `src/types/types.ts` `HybridSearchParams.filters`. -/
structure SearchFilters where
  player_name : Option String
  year : Option String
  brand : Option String
  min_grade : Option ℚ
  max_grade : Option ℚ
deriving Repr, DecidableEq

/-- `src/types/types.ts` `HybridSearchParams` (minus the raw query text,
which `hybridSearch` itself never reads). -/
structure HybridSearchParams where
  top_k : Option Nat
  text_weight : Option ℚ
  image_weight : Option ℚ
  filters : Option SearchFilters
deriving Repr, DecidableEq

/-- The filter object built by `hybridSearch`: string filters are added
only when truthy, grade bounds whenever not `undefined`; an empty object
is passed as `undefined` (`Object.keys(filter).length > 0` check). -/
def buildFilter : Option SearchFilters → Option MetadataFilter
  | none => none
  | some fs =>
    let pn := if truthyStr fs.player_name then fs.player_name else none
    let yr := if truthyStr fs.year then fs.year else none
    let br := if truthyStr fs.brand then fs.brand else none
    if pn = none ∧ yr = none ∧ br = none ∧ fs.min_grade = none ∧ fs.max_grade = none then
      none
    else some ⟨pn, yr, br, fs.min_grade, fs.max_grade⟩

/-- Stable descending sort of matches by score, modelling the external
service returning nearest neighbours best-first. -/
def sortByScoreDesc (l : List QueryMatch) : List QueryMatch :=
  l.insertionSort (fun a b => b.score.getD 0 ≤ a.score.getD 0)

/-- Pinecone `index.query({vector, topK, includeMetadata: true, filter})`:
the `topK` best-scoring entries passing the filter, with metadata. The
similarity scoring is performed by the external service and is abstracted
as `sim`. -/
def queryIndex (sim : List ℚ → List ℚ → ℚ) (idx : VecIndex) (vec : List ℚ)
    (topK : Nat) (f : Option MetadataFilter) : List QueryMatch :=
  (sortByScoreDesc ((idx.filter (fun e => filterAccept f e.metadata)).map
    (fun e => ⟨e.id, some (sim vec e.values), some e.metadata⟩))).take topK

/-- The retrieval engine's durable state: the two parallel indexes. -/
structure EngineState where
  textIndex : VecIndex
  imageIndex : VecIndex
deriving Repr, DecidableEq

/-- The metadata record `storeCard` writes (identically) into both
indexes; `||` turns an absent `set_name`/`card_number` into `""`. -/
def cardMetadataOf (card : PSACard) (imagePath created_at : String) : CardMetadata :=
  { player_name := card.player_name, year := card.year, brand := card.brand,
    psa_grade := card.psa_grade, cert_number := card.cert_number,
    set_name := card.set_name.getD "", card_number := card.card_number.getD "",
    image_path := imagePath, created_at := created_at }

/-- `storeCard` (`part_002`, lines 214-262), successful path: upsert the
text embedding into the text index and the image embedding into the image
index under `id := card.cert_number`, with identical metadata.  The
`new Date().toISOString()` timestamp is passed in as `timestamp`. -/
def storeCard (card : PSACard) (imagePath : String)
    (textEmbedding imageEmbedding : List ℚ) (timestamp : String)
    (st : EngineState) : EngineState :=
  let id := card.cert_number
  let metadata := cardMetadataOf card imagePath timestamp
  { textIndex := upsertEntry st.textIndex ⟨id, textEmbedding, metadata⟩,
    imageIndex := upsertEntry st.imageIndex ⟨id, imageEmbedding, metadata⟩ }

/-- `src/types/types.ts` `SearchResult`. -/
structure SearchResult where
  card : PSACard
  image_path : String
  similarity_score : ℚ
  text_score : ℚ
  image_score : ℚ
deriving Repr, DecidableEq

/-- Rebuilding a `PSACard` from stored metadata, as `hybridSearch` and
`getAllCards` do; `(… as string) || undefined` maps `""` back to absent. -/
def psaCardOfMetadata (m : CardMetadata) : PSACard :=
  { player_name := m.player_name, year := m.year, brand := m.brand,
    psa_grade := m.psa_grade, cert_number := m.cert_number,
    set_name := if m.set_name = "" then none else some m.set_name,
    card_number := if m.card_number = "" then none else some m.card_number }

/-- JS `Map.set`: overwrite in place if the key exists, else append. -/
def mapSet (l : List (String × SearchResult)) (k : String) (v : SearchResult) :
    List (String × SearchResult) :=
  if l.any (fun p => p.1 = k) then l.map (fun p => if p.1 = k then (k, v) else p)
  else l ++ [(k, v)]

/-- JS `Map.has`/`Map.get` existence test. -/
def mapHas (l : List (String × SearchResult)) (k : String) : Bool :=
  l.any (fun p => p.1 = k)

/-- `hybridSearch`'s first merge pass (`part_002`, lines 326-346): each
text match with metadata is entered into the map with its text score and
an image score of 0. -/
def textMergeStep (acc : List (String × SearchResult)) (m : QueryMatch) :
    List (String × SearchResult) :=
  match m.metadata with
  | none => acc
  | some md =>
    mapSet acc m.id
      { card := psaCardOfMetadata md, image_path := md.image_path,
        similarity_score := 0, text_score := m.score.getD 0, image_score := 0 }

/-- The in-place mutation `existing.image_score = match.score || 0` of
`hybridSearch`'s second merge pass, applied to the map entry holding the
match's id. -/
def updOne (m : QueryMatch) (p : String × SearchResult) : String × SearchResult :=
  if p.1 = m.id then (p.1, { p.2 with image_score := m.score.getD 0 }) else p

/-- `hybridSearch`'s second merge pass (`part_002`, lines 349-377): an
image match with metadata updates the image score of an existing entry in
place, or is appended as an image-only entry with text score 0. -/
def imageMergeStep (acc : List (String × SearchResult)) (m : QueryMatch) :
    List (String × SearchResult) :=
  match m.metadata with
  | none => acc
  | some md =>
    if mapHas acc m.id then
      acc.map (updOne m)
    else
      acc ++ [(m.id,
        { card := psaCardOfMetadata md, image_path := md.image_path,
          similarity_score := 0, text_score := 0, image_score := m.score.getD 0 })]

/-- Stable descending sort by combined score, modelling the JS
`sort((a, b) => b.similarity_score - a.similarity_score)` (stable per the
ECMAScript spec). -/
def sortBySimilarityDesc (l : List SearchResult) : List SearchResult :=
  l.insertionSort (fun a b => b.similarity_score ≤ a.similarity_score)

/-- `hybridSearch` (`part_002`, lines 268-396): defaults via `||`, build
the shared filter, query both indexes for `topK * 2` matches, merge by id
with missing scores filled with 0, combine scores by weighted sum, sort
descending, truncate to `topK`. -/
def hybridSearch (simT simI : List ℚ → List ℚ → ℚ) (st : EngineState)
    (params : HybridSearchParams)
    (textQueryEmbedding imageQueryEmbedding : List ℚ) : List SearchResult :=
  let topK := jsOrNat params.top_k 10
  let textWeight := jsOrRat params.text_weight (3/5)
  let imageWeight := jsOrRat params.image_weight (2/5)
  let filter := buildFilter params.filters
  let textResults := queryIndex simT st.textIndex textQueryEmbedding (topK * 2) filter
  let imageResults := queryIndex simI st.imageIndex imageQueryEmbedding (topK * 2) filter
  let merged := imageResults.foldl imageMergeStep (textResults.foldl textMergeStep [])
  let results := (merged.map (fun p => p.2)).map
    (fun r => { r with
      similarity_score := r.text_score * textWeight + r.image_score * imageWeight })
  (sortBySimilarityDesc results).take topK

/-- `src/types/types.ts` `CardRecord`. -/
structure CardRecord where
  id : String
  player_name : String
  year : String
  brand : String
  psa_grade : ℚ
  cert_number : String
  set_name : Option String
  card_number : Option String
  image_path : String
  text_embedding : List ℚ
  image_embedding : List ℚ
  created_at : String
deriving Repr, DecidableEq

/-- `getAllCards` (`part_002`, lines 402-438): query the text index with a
768-dimensional all-zero vector and a hardcoded `topK` of 100 (there is no
limit parameter), and return the matches as records with empty embedding
fields. -/
def getAllCards (simT : List ℚ → List ℚ → ℚ) (st : EngineState) : List CardRecord :=
  let dummyVector := List.replicate 768 (0 : ℚ)
  let results := queryIndex simT st.textIndex dummyVector 100 none
  (results.filter (fun m => m.metadata.isSome)).filterMap
    (fun m => m.metadata.map (fun md =>
      { id := m.id, player_name := md.player_name, year := md.year, brand := md.brand,
        psa_grade := md.psa_grade, cert_number := md.cert_number,
        set_name := if md.set_name = "" then none else some md.set_name,
        card_number := if md.card_number = "" then none else some md.card_number,
        image_path := md.image_path, text_embedding := [], image_embedding := [],
        created_at := md.created_at }))

/-- Result of `deleteCard`: the engine state after the two `deleteOne`
calls, and the error thrown to the caller (if any). -/
structure DeleteOutcome where
  state : EngineState
  thrown : Option String
deriving Repr, DecidableEq

/-- `deleteCard` (`part_002`, lines 443-458): `Promise.all` issues
`deleteOne` against both indexes (`textDeleteError`/`imageDeleteError`
say whether the respective external call rejects, and with what message);
any rejection is caught and re-thrown as the generic
`"Failed to delete card"`. -/
def deleteCard (st : EngineState) (certNumber : String)
    (textDeleteError imageDeleteError : Option String) : DeleteOutcome :=
  { state :=
      { textIndex :=
          if textDeleteError = none then deleteEntry st.textIndex certNumber
          else st.textIndex,
        imageIndex :=
          if imageDeleteError = none then deleteEntry st.imageIndex certNumber
          else st.imageIndex },
    thrown :=
      if textDeleteError = none ∧ imageDeleteError = none then none
      else some "Failed to delete card" }

/-! ## The processing pipeline (LangGraph agent) -/

/-- `src/lib/agent/types.ts` `AgentState.validationResult`. -/
structure ValidationResult where
  is_valid : Bool
  card_data : Option PSACard
  error : Option String
  rejection_reason : Option String
deriving Repr, DecidableEq

/-- `src/lib/agent/types.ts` `AgentState.certificationResult`. -/
structure CertificationResult where
  is_certified : Bool
  cert_url : Option String
  error : Option String
deriving Repr, DecidableEq

/-- `src/lib/agent/types.ts` `AgentState.finalResult`: the terminal
outcome, with the machine-readable kind in `error` and the human-readable
`reason` (failures), or the assembled record (success). -/
structure FinalResult where
  success : Bool
  card : Option PSACard
  description : Option String
  imagePath : Option String
  syntheticDocumentPath : Option String
  syntheticCardData : Option PSACard
  audioNarrationPath : Option String
  error : Option String
  reason : Option String
deriving Repr, DecidableEq

/-- A terminal failure outcome carrying a kind and a reason. -/
def failureResult (kind reason : String) : FinalResult :=
  { success := false, card := none, description := none, imagePath := none,
    syntheticDocumentPath := none, syntheticCardData := none,
    audioNarrationPath := none, error := some kind, reason := some reason }

/-- `src/lib/agent/types.ts` `AgentState`.  `imageBuffer` is the base64
payload extracted by `getCardInfo` (the decoded `Buffer` is represented
by the base64 text it was decoded from). -/
structure AgentState where
  imageData : Option String
  mimeType : Option String
  userHint : Option String
  shouldWebSearch : Bool
  imageBuffer : Option String
  validationResult : Option ValidationResult
  certificationResult : Option CertificationResult
  description : Option String
  webSearchResults : Option String
  textEmbedding : Option (List ℚ)
  imageEmbedding : Option (List ℚ)
  imagePath : Option String
  syntheticDocumentPath : Option String
  syntheticCardData : Option PSACard
  audioNarrationPath : Option String
  finalResult : Option FinalResult
  currentStep : Option String
  errors : List String
  next : Option String
deriving Repr, DecidableEq

/-- The Gemini extraction output (`validate_nba_card.ts` `analysisSchema`). -/
structure ExtractOutput where
  is_valid_psa_card : Bool
  player_name : Option String
  year : Option String
  brand : Option String
  psa_grade : Option ℚ
  cert_number : Option String
  set_name : Option String
  card_number : Option String
  rejection_reason : Option String
deriving Repr, DecidableEq

/-- One Tavily result snippet. -/
structure LookupSnippet where
  title : String
  content : String
deriving Repr, DecidableEq

/-- The Tavily search response used by `describeCard`. -/
structure LookupOutput where
  results : List LookupSnippet
  answer : Option String
deriving Repr, DecidableEq

/-- The external capabilities the pipeline consumes, per the repository's
call sites.  Each fallible external call is an `Except String` value: a
rejected promise is `Except.error message`.  `generateText` receives the
structured attributes, the baseline description, the user hint and the
optional web-search summary — the inputs `describeCard` flattens into its
prompt — and returns the extracted prose of the model reply. -/
structure Capabilities where
  googleKeyConfigured : Bool
  tavilyKeyConfigured : Bool
  extract : String → Option String → Except String ExtractOutput
  lookup : String → Except String LookupOutput
  generateText : PSACard → String → Option String → Option String → Except String String
  embedText : PSACard → Except String (List ℚ)
  embedImage : String → Except String (List ℚ)
  writeImageFile : String → String → Except String Unit
  persist : PSACard → String → List ℚ → List ℚ → Except String Unit

/-- The Ingest allow-list (`get_card_info.ts`, lines 22-27). -/
def allowedMimeTypes : List String :=
  ["image/jpeg", "image/png", "image/webp", "application/pdf"]

/-- Splitting a character list at every occurrence of `c` (the model of
JS `String.prototype.split` with a single-character separator). -/
def splitOnChar (c : Char) (l : List Char) : List (List Char) :=
  l.foldr (fun ch acc =>
    if ch = c then [] :: acc
    else match acc with
      | [] => [[ch]]
      | h :: t => (ch :: h) :: t) [[]]

/-- Whether `s` starts with `p` (the model of JS
`String.prototype.startsWith`, kept executable over character lists). -/
def strStartsWith (s p : String) : Bool := p.toList.isPrefixOf s.toList

/-- JS `imageData.split(",")[1] || imageData`: the segment between the
first and second comma if it exists and is non-empty, else the whole
string. -/
def jsSplitSecond (s : String) : String :=
  match (splitOnChar ',' s.toList).get? 1 with
  | some p => if p = [] then s else ⟨p⟩
  | none => s

/-- Byte length of a decoded base64 payload (`Buffer.from(s, "base64")`). -/
def base64ByteLength (s : String) : Nat := s.toList.length * 3 / 4

/-- The 20MB Ingest size ceiling. -/
def ingestMaxSize : Nat := 20 * 1024 * 1024

/-- The catch branch of `getCardInfo`: terminal failure of kind
`image_processing_failed`. -/
def getCardInfoCatch (st : AgentState) (msg : String) : AgentState :=
  { st with currentStep := some "get_card_info_failed",
            errors := st.errors ++ [msg],
            finalResult := some (failureResult "image_processing_failed" msg),
            next := some "end" }

/-- Tool 1, `getCardInfo` (`src/lib/agent/tools/get_card_info.ts`). -/
def getCardInfo (st : AgentState) : AgentState :=
  match st.imageData with
  | none => getCardInfoCatch st "No image data provided"
  | some imageData =>
    match st.mimeType with
    | none => getCardInfoCatch st "No MIME type provided"
    | some mimeType =>
      if mimeType ∈ allowedMimeTypes then
        let base64Data := jsSplitSecond imageData
        if base64ByteLength base64Data > ingestMaxSize then
          getCardInfoCatch st "Image too large. Maximum size is 20MB."
        else
          { st with imageBuffer := some base64Data,
                    currentStep := some "get_card_info_completed",
                    next := some "validate_nba_card" }
      else
        getCardInfoCatch st "Invalid image type. Supported types: JPEG, PNG, WEBP, PDF"

/-- The catch branch of `validateNBACard`: terminal failure of kind
`validation_failed`. -/
def validateCatch (st : AgentState) (msg : String) : AgentState :=
  { st with currentStep := some "validate_nba_card_failed",
            errors := st.errors ++ [msg],
            finalResult := some (failureResult "validation_failed" msg),
            next := some "end" }

/-- The reason used when a valid card misses required fields. -/
def missingFieldsMsg : String :=
  "Unable to extract all required information from the PSA label."

/-- The default rejection reason. -/
def defaultRejection : String :=
  "Image does not contain a valid PSA-graded NBA card."

/-- The card assembled from a complete extraction output. -/
def extractedCard (a : ExtractOutput) : PSACard :=
  { player_name := a.player_name.getD "", year := a.year.getD "",
    brand := a.brand.getD "", psa_grade := a.psa_grade.getD 0,
    cert_number := a.cert_number.getD "",
    set_name := a.set_name, card_number := a.card_number }

/-- Tool 2, `validateNBACard` (`src/lib/agent/tools/validate_nba_card.ts`):
runs the extraction capability; a card marked valid but with a missing
(falsy) required field fails with kind `image_not_supported`, a card
marked invalid is rejected with the same kind `image_not_supported`, and
a capability error fails with kind `validation_failed`. -/
def validateNBACard (caps : Capabilities) (st : AgentState) : AgentState :=
  match st.imageBuffer with
  | none => validateCatch st "No image buffer available"
  | some imageBuffer =>
    if caps.googleKeyConfigured then
      match caps.extract imageBuffer st.userHint with
      | .error e => validateCatch st e
      | .ok a =>
        if a.is_valid_psa_card then
          if truthyStr a.player_name && truthyStr a.year && truthyStr a.brand
              && truthyRat a.psa_grade && truthyStr a.cert_number then
            { st with
                validationResult :=
                  some { is_valid := true, card_data := some (extractedCard a),
                         error := none, rejection_reason := none },
                currentStep := some "validate_nba_card_completed",
                next := some "certify_card" }
          else
            { st with
                validationResult :=
                  some { is_valid := false, card_data := none,
                         error := some missingFieldsMsg, rejection_reason := none },
                currentStep := some "validate_nba_card_failed",
                finalResult := some (failureResult "image_not_supported" missingFieldsMsg),
                next := some "end" }
        else
          let rr := jsOrStr a.rejection_reason defaultRejection
          { st with
              validationResult :=
                some { is_valid := false, card_data := none,
                       error := none, rejection_reason := some rr },
              currentStep := some "validate_nba_card_rejected",
              finalResult := some (failureResult "image_not_supported" rr),
              next := some "end" }
    else validateCatch st "Google API key not configured"

/-- The catch branch of `certifyCard`: non-fatal, records the error and
continues to `describe_card` anyway. -/
def certifyCatch (st : AgentState) : AgentState :=
  { st with
      certificationResult :=
        some { is_certified := false, cert_url := none,
               error := some "No valid card data to certify" },
      currentStep := some "certify_card_failed",
      errors := st.errors ++ ["No valid card data to certify"],
      next := some "describe_card" }

/-- Tool 3, `certifyCard` (`src/lib/agent/tools/certify_card.ts`): builds
the PSA verification URL from the certification number — a pure string
construction, no external call — and always routes to `describe_card`. -/
def certifyCard (st : AgentState) : AgentState :=
  match st.validationResult with
  | some v =>
    if v.is_valid then
      match v.card_data with
      | some c =>
        let certUrl := "https://www.psacard.com/cert/" ++ c.cert_number
        { st with
            certificationResult :=
              some { is_certified := true, cert_url := some certUrl, error := none },
            currentStep := some "certify_card_completed",
            next := some "describe_card" }
      | none => certifyCatch st
    else certifyCatch st
  | none => certifyCatch st

/-- `buildBaseDescription` (`part_008`, lines 5-32): the deterministic
baseline description built from the card attributes and the optional
verification URL. -/
def buildBaseDescription (card : Option PSACard) (certUrl : Option String) : String :=
  match card with
  | none => "Card description unavailable"
  | some c =>
    let d1 := "This is a PSA " ++ toString c.psa_grade ++ " graded " ++ c.year ++ " " ++ c.brand
    let d2 := if truthyStr c.set_name then d1 ++ " " ++ c.set_name.getD "" else d1
    let d3 := d2 ++ " card featuring " ++ c.player_name ++ "."
    let d4 :=
      if truthyStr c.card_number then d3 ++ " Card number: " ++ c.card_number.getD "" ++ "."
      else d3
    let d5 := d4 ++ " PSA Certification: " ++ c.cert_number ++ "."
    match certUrl with
    | some u => if u = "" then d5 else d5 ++ " You can verify this card at " ++ u ++ "."
    | none => d5

/-- The Tavily search query built by `describeCard`. -/
def tavilySearchQuery (c : PSACard) : String :=
  "PSA " ++ c.year ++ " " ++ c.brand ++ " " ++ c.player_name ++ " collector facts significance"

/-- Summarising the Tavily response (`part_008`, lines 109-126): top three
snippets plus the optional answer, joined and trimmed; `undefined` when
empty. -/
def summarizeLookup (out : LookupOutput) : Option String :=
  let summarizedFacts := String.intercalate "\n"
    ((out.results.take 3).enum.map (fun p =>
      "Fact " ++ toString (p.1 + 1) ++ ": " ++ p.2.title ++ " — " ++ p.2.content))
  let answerPart :=
    match out.answer with
    | some a => if a = "" then "" else "Summary: " ++ a
    | none => ""
  let combined :=
    (String.intercalate "\n\n" (([answerPart, summarizedFacts]).filter (fun s => s ≠ ""))).trim
  if combined.length > 0 then some combined else none

/-- The outer catch branch of `describeCard`: non-fatal, builds the basic
description and continues to `generate_embeddings`. -/
def describeCatch (st : AgentState) : AgentState :=
  let card :=
    match st.validationResult with
    | some v => v.card_data
    | none => none
  let basicDescription :=
    match card with
    | some c =>
      "PSA " ++ toString c.psa_grade ++ " " ++ c.year ++ " " ++ c.brand ++ " "
        ++ c.player_name ++ " - Cert #" ++ c.cert_number
    | none => "Card description unavailable"
  { st with description := some basicDescription,
            webSearchResults := st.webSearchResults,
            currentStep := some "describe_card_failed",
            errors := st.errors ++ ["No valid card data to describe"],
            next := some "generate_embeddings" }

/-- The optional web-search sub-step of `describeCard` (`part_008`,
lines 88-138): the summary (if any) and the warnings it appends. -/
def describeWebStep (caps : Capabilities) (st : AgentState) (c : PSACard) :
    Option String × List String :=
  if st.shouldWebSearch then
    if caps.tavilyKeyConfigured then
      match caps.lookup (tavilySearchQuery c) with
      | .error m => (none, ["Tavily search failed: " ++ m])
      | .ok out => (summarizeLookup out, [])
    else (none, ["Web search requested but TAVILY_API_KEY is not configured."])
  else (none, [])

/-- Tool 4, `describeCard` (`part_008`, lines 72-227): builds the baseline
description, optionally performs the Tavily lookup (failures are recorded
as warnings), then asks the text-generation capability for an enhanced
description, keeping the baseline when that call fails or returns nothing.
Every branch routes to `generate_embeddings`. -/
def describeCard (caps : Capabilities) (st : AgentState) : AgentState :=
  match st.validationResult with
  | some v =>
    if v.is_valid then
      match v.card_data with
      | some c =>
        let baseDescription :=
          buildBaseDescription (some c) (st.certificationResult.bind (fun r => r.cert_url))
        let webStep := describeWebStep caps st c
        let genStep : String × List String :=
          if caps.googleKeyConfigured then
            match caps.generateText c baseDescription st.userHint webStep.1 with
            | .error m => (baseDescription, [m])
            | .ok t => (if t = "" then baseDescription else t, [])
          else
            (baseDescription,
             ["Google Generative AI key missing. Set GOOGLE_GENERATIVE_AI_API_KEY."])
        let newErrors := webStep.2 ++ genStep.2
        { st with description := some genStep.1,
                  webSearchResults := webStep.1,
                  currentStep := some "describe_card_completed",
                  errors := if newErrors = [] then st.errors else st.errors ++ newErrors,
                  next := some "generate_embeddings" }
      | none => describeCatch st
    else describeCatch st
  | none => describeCatch st

/-- The catch branch of `generateEmbeddings`: terminal failure of kind
`embedding_failed`. -/
def embedCatch (st : AgentState) (msg : String) : AgentState :=
  { st with currentStep := some "generate_embeddings_failed",
            errors := st.errors ++ [msg],
            finalResult := some (failureResult "embedding_failed" msg),
            next := some "end" }

/-- Tool 5, `generateEmbeddings` (`part_000`): runs both embedding
capabilities (`Promise.all`, both-or-neither); any failure is terminal
with kind `embedding_failed`. -/
def generateEmbeddings (caps : Capabilities) (st : AgentState) : AgentState :=
  match st.validationResult with
  | some v =>
    if v.is_valid then
      match v.card_data with
      | some c =>
        match st.imageBuffer with
        | some imageBuffer =>
          match caps.embedText c, caps.embedImage imageBuffer with
          | .ok te, .ok ie =>
            { st with textEmbedding := some te, imageEmbedding := some ie,
                      currentStep := some "generate_embeddings_completed",
                      next := some "save_to_database" }
          | .error e, _ => embedCatch st e
          | _, .error e => embedCatch st e
        | none => embedCatch st "No image buffer available for image embedding"
      | none => embedCatch st "No valid card data for embedding generation"
    else embedCatch st "No valid card data for embedding generation"
  | none => embedCatch st "No valid card data for embedding generation"

/-- A `\w` word character of the JS regex in `saveCardImage`. -/
def isWordChar (ch : Char) : Bool := ch.isAlphanum || ch = '_'

/-- The regex match `imageData.match(/^data:image\x5c/(\x5cw+);base64,(.+)$/)`
of `src/lib/storage.ts`: the extension and base64 payload of a
`data:image/...` URL, or `none` when the payload is not of that shape. -/
def parseDataImageUrl (s : String) : Option (String × String) :=
  if strStartsWith s "data:image/" then
    let t := s.toList.drop 11
    let ext := t.takeWhile isWordChar
    let rest := t.drop ext.length
    if ext ≠ [] ∧ ";base64,".toList.isPrefixOf rest ∧ rest.drop 8 ≠ [] then
      some (⟨ext⟩, ⟨rest.drop 8⟩)
    else none
  else none

/-- `saveCardImage` (`src/lib/storage.ts`, lines 29-66): reject any
payload that is not a `data:image/<ext>;base64,<data>` URL, write the
decoded bytes to `/cards/<cert>.<ext>`, return that relative path; every
internal error is re-thrown as `"Failed to save card image"`. -/
def saveCardImage (caps : Capabilities) (certNumber imageData : String) :
    Except String String :=
  match parseDataImageUrl imageData with
  | none => .error "Failed to save card image"
  | some (extension, base64Data) =>
    let relativePath := "/cards/" ++ certNumber ++ "." ++ extension
    match caps.writeImageFile relativePath base64Data with
    | .ok _ => .ok relativePath
    | .error _ => .error "Failed to save card image"

/-- The catch branch of `saveToDatabase`: terminal failure of kind
`save_failed`. -/
def saveCatch (st : AgentState) (msg : String) : AgentState :=
  { st with currentStep := some "save_to_database_failed",
            errors := st.errors ++ [msg],
            finalResult := some (failureResult "save_failed" msg),
            next := some "end" }

/-- Tool 6, `saveToDatabase` (`part_006`): saves the image via
`saveCardImage`, persists the record via the engine's store operation
(`caps.persist` is the `storeCard` call, which may throw), and on success
assembles the terminal success outcome. -/
def saveToDatabase (caps : Capabilities) (st : AgentState) : AgentState :=
  match st.validationResult with
  | some v =>
    if v.is_valid then
      match v.card_data with
      | some c =>
        match st.imageData with
        | some imageData =>
          match st.textEmbedding, st.imageEmbedding with
          | some te, some ie =>
            match saveCardImage caps c.cert_number imageData with
            | .error e => saveCatch st e
            | .ok imagePath =>
              match caps.persist c imagePath te ie with
              | .error e => saveCatch st e
              | .ok _ =>
                { st with imagePath := some imagePath,
                          finalResult := some
                            { success := true, card := some c,
                              description := st.description,
                              imagePath := some imagePath,
                              syntheticDocumentPath := st.syntheticDocumentPath,
                              syntheticCardData := st.syntheticCardData,
                              audioNarrationPath := st.audioNarrationPath,
                              error := none, reason := none },
                          currentStep := some "save_to_database_completed",
                          next := some "end" }
          | _, _ => saveCatch st "Embeddings not generated"
        | none => saveCatch st "No image data to save"
      | none => saveCatch st "No valid card data to save"
    else saveCatch st "No valid card data to save"
  | none => saveCatch st "No valid card data to save"

/-- Dispatch of a LangGraph node name to its tool (`graph.ts` `addNode`). -/
def applyNode (caps : Capabilities) (name : String) (st : AgentState) : AgentState :=
  if name = "get_card_info" then getCardInfo st
  else if name = "validate_nba_card" then validateNBACard caps st
  else if name = "certify_card" then certifyCard st
  else if name = "describe_card" then describeCard caps st
  else if name = "generate_embeddings" then generateEmbeddings caps st
  else if name = "save_to_database" then saveToDatabase caps st
  else { st with next := none }

/-- `routeNext` (`graph.ts`, lines 26-32): the `next` field names the
following node; `"end"` or an unset `next` terminates. -/
def routeNext (st : AgentState) : String := st.next.getD "end"

/-- The LangGraph driver: run nodes from `node`, following `routeNext`,
collecting the trace of executed node names.  `fuel` bounds the number of
steps (the graph is a finite forward chain, so any fuel above the chain
length is exact). -/
def runAgent (caps : Capabilities) : Nat → String → AgentState → AgentState × List String
  | 0, _, st => (st, [])
  | Nat.succ n, node, st =>
    if node = "end" then (st, [])
    else
      let st' := applyNode caps node st
      let r := runAgent caps n (routeNext st') st'
      (r.1, node :: r.2)

/-- `executePSACardAgent`'s graph invocation: start at `get_card_info`
(the chain has six nodes, so a fuel of 8 is exact). -/
def runPipeline (caps : Capabilities) (st : AgentState) : AgentState × List String :=
  runAgent caps 8 "get_card_info" st

/-! ## Sample values used by witnesses and counterexamples -/

/-- A concrete extracted card. -/
def sampleCard : PSACard :=
  { player_name := "LeBron James", year := "2003-04", brand := "Topps",
    psa_grade := 10, cert_number := "12345678", set_name := none, card_number := none }

/-- An agent state with every field unset, as at pipeline start. -/
def emptyAgentState : AgentState :=
  { imageData := none, mimeType := none, userHint := none, shouldWebSearch := false,
    imageBuffer := none, validationResult := none, certificationResult := none,
    description := none, webSearchResults := none, textEmbedding := none,
    imageEmbedding := none, imagePath := none, syntheticDocumentPath := none,
    syntheticCardData := none, audioNarrationPath := none, finalResult := none,
    currentStep := none, errors := [], next := none }

/-- A state that has passed validation with `sampleCard`. -/
def validatedState : AgentState :=
  { emptyAgentState with
      validationResult :=
        some { is_valid := true, card_data := some sampleCard,
               error := none, rejection_reason := none } }

/-! ## C7: the Verify step -/

/-- C7. The Verify step (`certifyCard`) is a pure, deterministic string
construction from the extracted identifier: for every state holding a
valid extracted card it produces the verification reference
`"https://www.psacard.com/cert/" ++ cert_number` — a string containing
the certification number — leaves the error list untouched and routes to
the next fixed step `describe_card`; on its internal error (no valid card
data) it appends the error to the running error list, records an
unverified (`is_certified := false`) result, and still routes to
`describe_card`.  In both cases it never sets a terminal outcome. -/
theorem certifyCard_reference_and_routing :
    (∀ st v c, st.validationResult = some v → v.is_valid = true → v.card_data = some c →
      (certifyCard st).certificationResult =
        some { is_certified := true,
               cert_url := some ("https://www.psacard.com/cert/" ++ c.cert_number),
               error := none } ∧
      (∃ p, "https://www.psacard.com/cert/" ++ c.cert_number = p ++ c.cert_number) ∧
      (certifyCard st).next = some "describe_card" ∧
      (certifyCard st).errors = st.errors ∧
      (certifyCard st).finalResult = st.finalResult) ∧
    (∀ st, (∀ v, st.validationResult = some v → v.is_valid = false ∨ v.card_data = none) →
      (certifyCard st).certificationResult =
        some { is_certified := false, cert_url := none,
               error := some "No valid card data to certify" } ∧
      (certifyCard st).errors = st.errors ++ ["No valid card data to certify"] ∧
      (certifyCard st).next = some "describe_card" ∧
      (certifyCard st).finalResult = st.finalResult) := by
  constructor
  · intro st v c hv hvalid hcard
    refine ⟨?_, ⟨"https://www.psacard.com/cert/", rfl⟩, ?_, ?_, ?_⟩ <;>
      simp [certifyCard, hv, hvalid, hcard]
  · intro st h
    have hcases : certifyCard st = certifyCatch st := by
      unfold certifyCard
      cases hvr : st.validationResult with
      | none => rfl
      | some v =>
        rcases h v hvr with hinv | hnone
        · simp [hinv]
        · simp [hnone]
    rw [hcases]
    exact ⟨rfl, rfl, rfl, rfl⟩

/-- Witness for C7 at concrete inputs: the valid case produces the
reference URL containing `"12345678"`, and the invalid case appends the
error and continues. -/
theorem certifyCard_reference_and_routing_witness :
    (certifyCard validatedState).certificationResult =
      some { is_certified := true,
             cert_url := some ("https://www.psacard.com/cert/" ++ sampleCard.cert_number),
             error := none } ∧
    (certifyCard emptyAgentState).errors =
      emptyAgentState.errors ++ ["No valid card data to certify"] :=
  ⟨(certifyCard_reference_and_routing.1 validatedState _ sampleCard rfl rfl rfl).1,
   ((certifyCard_reference_and_routing.2 emptyAgentState
      (fun _ hv => by cases hv)).2.1)⟩

/-! ## C8: delete and partial failure -/

/-- Concrete metadata records used by engine-level witnesses. -/
def metaA : CardMetadata :=
  { player_name := "Michael Jordan", year := "1996", brand := "Topps",
    psa_grade := 9, cert_number := "A", set_name := "", card_number := "",
    image_path := "/cards/A.png", created_at := "2024-01-01T00:00:00.000Z" }

/-- A second concrete metadata record. -/
def metaB : CardMetadata :=
  { player_name := "Kobe Bryant", year := "1997", brand := "Topps",
    psa_grade := 8, cert_number := "B", set_name := "", card_number := "",
    image_path := "/cards/B.png", created_at := "2024-01-02T00:00:00.000Z" }

/-- An engine holding one record, `"A"`, in both indexes. -/
def oneCardEngine : EngineState :=
  { textIndex := [⟨"A", [(1 : ℚ)], metaA⟩], imageIndex := [⟨"A", [(0 : ℚ)], metaA⟩] }

/-- C8 counterexample. `deleteCard` does not report which index deletion
succeeded: the run where only the text-index deletion succeeds and the
run where only the image-index deletion succeeds leave different index
states, yet throw the identical generic error
`"Failed to delete card"`, so the caller cannot tell which index still
holds the record. -/
theorem deleteCard_failure_report_is_generic :
    (deleteCard oneCardEngine "A" none (some "image index unavailable")).thrown
      = (deleteCard oneCardEngine "A" (some "text index unavailable") none).thrown ∧
    (deleteCard oneCardEngine "A" none (some "image index unavailable")).thrown
      = some "Failed to delete card" ∧
    (deleteCard oneCardEngine "A" none (some "image index unavailable")).state
      ≠ (deleteCard oneCardEngine "A" (some "text index unavailable") none).state := by
  decide

/-- C8 as amended. `deleteCard` removes the record from both indexes when
both underlying deletions succeed; when either underlying deletion fails
it throws the fixed message `"Failed to delete card"`, which carries no
indication of which of the two deletions succeeded. -/
theorem deleteCard_removes_both_or_generic_failure :
    ∀ st cert tErr iErr,
      (tErr = none → iErr = none →
        (deleteCard st cert tErr iErr).thrown = none ∧
        (deleteCard st cert tErr iErr).state.textIndex = deleteEntry st.textIndex cert ∧
        (deleteCard st cert tErr iErr).state.imageIndex = deleteEntry st.imageIndex cert ∧
        (∀ e ∈ (deleteCard st cert tErr iErr).state.textIndex, e.id ≠ cert) ∧
        (∀ e ∈ (deleteCard st cert tErr iErr).state.imageIndex, e.id ≠ cert)) ∧
      (tErr ≠ none ∨ iErr ≠ none →
        (deleteCard st cert tErr iErr).thrown = some "Failed to delete card") := by
  intro st cert tErr iErr
  constructor
  · intro ht hi
    subst ht; subst hi
    refine ⟨rfl, rfl, rfl, ?_, ?_⟩ <;>
    · intro e he
      simp [deleteCard, deleteEntry, List.mem_filter] at he
      exact he.2
  · intro h
    have hne : ¬ (tErr = none ∧ iErr = none) := by
      rintro ⟨h1, h2⟩
      rcases h with h' | h'
      · exact h' h1
      · exact h' h2
    simp [deleteCard, hne]

/-- Witness for C8's amended theorem at concrete inputs. -/
theorem deleteCard_removes_both_or_generic_failure_witness :
    (deleteCard oneCardEngine "A" none none).thrown = none ∧
    (deleteCard oneCardEngine "A" (some "boom") none).thrown
      = some "Failed to delete card" :=
  ⟨((deleteCard_removes_both_or_generic_failure oneCardEngine "A" none none).1 rfl rfl).1,
   (deleteCard_removes_both_or_generic_failure oneCardEngine "A" (some "boom") none).2
     (Or.inl (by simp))⟩

/-! ## C9: listAll -/

/-- An engine with two stored records in the text index. -/
def twoCardEngine : EngineState :=
  { textIndex := [⟨"A", [(1 : ℚ)], metaA⟩, ⟨"B", [(2 : ℚ)], metaB⟩], imageIndex := [] }

/-- A similarity function that scores everything 0 (what cosine
similarity yields for Pinecone's all-zero query vector). -/
def zeroSim : List ℚ → List ℚ → ℚ := fun _ _ => 0

set_option maxRecDepth 8192 in
/-- C9 counterexample. `getAllCards` takes no limit argument: its result
size is governed by the hardcoded `topK` of 100, so with a store of two
records it returns two records — the claimed `listAll(limit)` behaviour
at `limit = 1` (at most one record) is false, there being no limit
parameter to pass. -/
theorem getAllCards_ignores_any_limit : ¬ (getAllCards zeroSim twoCardEngine).length ≤ 1 := by
  decide

/-- C9 as amended. `getAllCards` takes no limit argument and returns up
to a fixed 100 stored records (a broad query of the text index under the
all-zero 768-dimensional query vector), and the embedding vectors are not
included in the returned records: both embedding fields are empty. -/
theorem getAllCards_fixed_cap_and_no_vectors :
    ∀ simT st, (getAllCards simT st).length ≤ 100 ∧
      ∀ r ∈ getAllCards simT st, r.text_embedding = [] ∧ r.image_embedding = [] := by
  intro simT st
  constructor
  · unfold getAllCards
    refine le_trans (List.length_filterMap_le _ _)
      (le_trans (List.length_filter_le _ _) ?_)
    unfold queryIndex
    exact List.length_take_le _ _
  · intro r hr
    simp only [getAllCards, List.mem_filterMap] at hr
    obtain ⟨m, _, hm⟩ := hr
    rcases hmd : m.metadata with _ | md
    · rw [hmd] at hm; cases hm
    · rw [hmd] at hm
      cases hm
      exact ⟨rfl, rfl⟩

set_option maxRecDepth 8192 in
/-- Witness for C9's amended theorem at concrete inputs: the two-record
store returns records without embedding values, under the cap. -/
theorem getAllCards_fixed_cap_and_no_vectors_witness :
    (getAllCards zeroSim twoCardEngine).length ≤ 100 ∧
    ({ id := "A", player_name := "Michael Jordan", year := "1996", brand := "Topps",
       psa_grade := 9, cert_number := "A", set_name := none, card_number := none,
       image_path := "/cards/A.png", text_embedding := [], image_embedding := [],
       created_at := "2024-01-01T00:00:00.000Z" } : CardRecord).text_embedding = [] :=
  ⟨(getAllCards_fixed_cap_and_no_vectors zeroSim twoCardEngine).1,
   ((getAllCards_fixed_cap_and_no_vectors zeroSim twoCardEngine).2 _ (by decide)).1⟩

/-! ## C2: weight override and the falsy-zero default -/

/-- A similarity function reading the stored vector's head as the score
(used to build concrete score configurations in counterexamples). -/
def headSim : List ℚ → List ℚ → ℚ := fun _ v => v.headD 0

/-- An engine where record `"A"` has text score 9/10 and image score 0,
and record `"B"` has text score 4/5 and image score 1 (under `headSim`). -/
def c2Engine : EngineState :=
  { textIndex := [⟨"A", [(9/10 : ℚ)], metaA⟩, ⟨"B", [(4/5 : ℚ)], metaB⟩],
    imageIndex := [⟨"A", [(0 : ℚ)], metaA⟩, ⟨"B", [(1 : ℚ)], metaB⟩] }

/-- The ranking of a result list re-sorted by raw text score alone. -/
def rankingByTextScore (l : List SearchResult) : List String :=
  (l.insertionSort (fun a b => b.text_score ≤ a.text_score)).map
    (fun r => r.card.cert_number)

/-- C2 counterexample. `search` with caller-supplied weights
`{text: 1, image: 0}` does **not** rank by raw text score alone: the JS
`params.image_weight || 0.4` treats the supplied `0` as absent and uses
the default `0.4`.  Concretely, with text scores A ↦ 9/10, B ↦ 4/5 and
image scores A ↦ 0, B ↦ 1, the produced ranking is `["B", "A"]` while
the ranking by text score alone over the same merged results is
`["A", "B"]`. -/
theorem hybridSearch_unit_zero_weights_not_text_ranking :
    ((hybridSearch headSim headSim c2Engine
        { top_k := some 2, text_weight := some 1, image_weight := some 0,
          filters := none } [] []).map (fun r => r.card.cert_number)) = ["B", "A"] ∧
    rankingByTextScore
      (hybridSearch headSim headSim c2Engine
        { top_k := some 2, text_weight := some 1, image_weight := some 0,
          filters := none } [] []) = ["A", "B"] := by
  with_unfolding_all decide

/-- C2 as amended. A caller-supplied weight of `0` does not override the
default: `hybridSearch` with weights `{text: 1, image: 0}` behaves
identically to weights `{text: 1, image: 0.4}` (and likewise a zero text
weight becomes `0.6`), because the `||` defaulting treats `0` as absent;
caller weights override the defaults exactly when they are nonzero. -/
theorem hybridSearch_zero_weight_uses_default :
    (∀ simT simI st qt qi k tw fs,
      hybridSearch simT simI st
        { top_k := k, text_weight := tw, image_weight := some 0, filters := fs } qt qi
      = hybridSearch simT simI st
        { top_k := k, text_weight := tw, image_weight := some (2/5), filters := fs } qt qi) ∧
    (∀ simT simI st qt qi k iw fs,
      hybridSearch simT simI st
        { top_k := k, text_weight := some 0, image_weight := iw, filters := fs } qt qi
      = hybridSearch simT simI st
        { top_k := k, text_weight := some (3/5), image_weight := iw, filters := fs } qt qi) ∧
    (∀ w d : ℚ, w ≠ 0 → jsOrRat (some w) d = w) := by
  refine ⟨?_, ?_, ?_⟩
  · intro simT simI st qt qi k tw fs
    simp only [hybridSearch, jsOrRat]
    norm_num
  · intro simT simI st qt qi k iw fs
    simp only [hybridSearch, jsOrRat]
    norm_num
  · intro w d hw
    simp [jsOrRat, hw]

/-- Witness for C2's amended theorem at concrete inputs. -/
theorem hybridSearch_zero_weight_uses_default_witness :
    hybridSearch headSim headSim c2Engine
      { top_k := some 2, text_weight := some 1, image_weight := some 0, filters := none } [] []
    = hybridSearch headSim headSim c2Engine
      { top_k := some 2, text_weight := some 1, image_weight := some (2/5), filters := none } [] []
    ∧ jsOrRat (some 1) (2/5) = 1 :=
  ⟨hybridSearch_zero_weight_uses_default.1 headSim headSim c2Engine [] []
      (some 2) (some 1) none,
   hybridSearch_zero_weight_uses_default.2.2 1 (2/5) one_ne_zero⟩

/-! ## C3: the failure taxonomy -/

/-- Every terminal outcome `getCardInfo` introduces is a failure of kind
`image_processing_failed`. -/
theorem getCardInfo_finalResult_cases (st : AgentState) :
    (getCardInfo st).finalResult = st.finalResult ∨
    ∃ r, (getCardInfo st).finalResult = some (failureResult "image_processing_failed" r) := by
  unfold getCardInfo getCardInfoCatch
  rcases st.imageData with _ | d
  · exact Or.inr ⟨_, rfl⟩
  · rcases st.mimeType with _ | mt
    · exact Or.inr ⟨_, rfl⟩
    · dsimp only
      split
      · split
        · exact Or.inr ⟨_, rfl⟩
        · exact Or.inl rfl
      · exact Or.inr ⟨_, rfl⟩

/-- Every terminal outcome `validateNBACard` introduces is a failure of
kind `image_not_supported` (rejected or incomplete card) or
`validation_failed` (extraction capability error). -/
theorem validateNBACard_finalResult_cases (caps : Capabilities) (st : AgentState) :
    (validateNBACard caps st).finalResult = st.finalResult ∨
    (∃ r, (validateNBACard caps st).finalResult
        = some (failureResult "image_not_supported" r)) ∨
    (∃ r, (validateNBACard caps st).finalResult
        = some (failureResult "validation_failed" r)) := by
  unfold validateNBACard validateCatch
  rcases st.imageBuffer with _ | buf
  · exact Or.inr (Or.inr ⟨_, rfl⟩)
  · dsimp only
    split
    · rcases caps.extract buf st.userHint with e | a
      · exact Or.inr (Or.inr ⟨_, rfl⟩)
      · dsimp only
        split
        · split
          · exact Or.inl rfl
          · exact Or.inr (Or.inl ⟨_, rfl⟩)
        · exact Or.inr (Or.inl ⟨_, rfl⟩)
    · exact Or.inr (Or.inr ⟨_, rfl⟩)

/-- `certifyCard` never sets a terminal outcome. -/
theorem certifyCard_finalResult (st : AgentState) :
    (certifyCard st).finalResult = st.finalResult := by
  unfold certifyCard certifyCatch
  rcases st.validationResult with _ | v
  · rfl
  · dsimp only
    split
    · rcases v.card_data with _ | c
      · rfl
      · rfl
    · rfl

/-- `describeCard` never sets a terminal outcome. -/
theorem describeCard_finalResult (caps : Capabilities) (st : AgentState) :
    (describeCard caps st).finalResult = st.finalResult := by
  unfold describeCard describeCatch
  rcases st.validationResult with _ | v
  · rfl
  · dsimp only
    split
    · rcases v.card_data with _ | c
      · rfl
      · rfl
    · rfl

/-- Every terminal outcome `generateEmbeddings` introduces is a failure
of kind `embedding_failed`. -/
theorem generateEmbeddings_finalResult_cases (caps : Capabilities) (st : AgentState) :
    (generateEmbeddings caps st).finalResult = st.finalResult ∨
    ∃ r, (generateEmbeddings caps st).finalResult
        = some (failureResult "embedding_failed" r) := by
  unfold generateEmbeddings embedCatch
  rcases st.validationResult with _ | v
  · exact Or.inr ⟨_, rfl⟩
  · dsimp only
    split
    · rcases v.card_data with _ | c
      · exact Or.inr ⟨_, rfl⟩
      · rcases st.imageBuffer with _ | buf
        · exact Or.inr ⟨_, rfl⟩
        · dsimp only
          rcases caps.embedText c with e | te <;> rcases caps.embedImage buf with e2 | ie
          · exact Or.inr ⟨_, rfl⟩
          · exact Or.inr ⟨_, rfl⟩
          · exact Or.inr ⟨_, rfl⟩
          · exact Or.inl rfl
    · exact Or.inr ⟨_, rfl⟩

/-- `saveToDatabase` always sets the terminal outcome: either a failure
of kind `save_failed` or the assembled success record. -/
theorem saveToDatabase_finalResult_cases (caps : Capabilities) (st : AgentState) :
    (∃ r, (saveToDatabase caps st).finalResult
        = some (failureResult "save_failed" r)) ∨
    (∃ fr, (saveToDatabase caps st).finalResult = some fr ∧ fr.success = true) := by
  unfold saveToDatabase saveCatch
  rcases st.validationResult with _ | v
  · exact Or.inl ⟨_, rfl⟩
  · dsimp only
    split
    · rcases v.card_data with _ | c
      · exact Or.inl ⟨_, rfl⟩
      · rcases st.imageData with _ | d
        · exact Or.inl ⟨_, rfl⟩
        · dsimp only
          rcases st.textEmbedding with _ | te <;> rcases st.imageEmbedding with _ | ie
          · exact Or.inl ⟨_, rfl⟩
          · exact Or.inl ⟨_, rfl⟩
          · exact Or.inl ⟨_, rfl⟩
          · dsimp only
            rcases saveCardImage caps c.cert_number d with e | p
            · exact Or.inl ⟨_, rfl⟩
            · dsimp only
              rcases caps.persist c p te ie with e | u
              · exact Or.inl ⟨_, rfl⟩
              · exact Or.inr ⟨_, rfl, rfl⟩
    · exact Or.inl ⟨_, rfl⟩

/-- An extraction output marked valid but with a missing required field
(`player_name`). -/
def extractIncomplete : ExtractOutput :=
  { is_valid_psa_card := true, player_name := none, year := some "2003-04",
    brand := some "Topps", psa_grade := some 10, cert_number := some "12345678",
    set_name := none, card_number := none, rejection_reason := none }

/-- An extraction output marked invalid. -/
def extractRejected : ExtractOutput :=
  { is_valid_psa_card := false, player_name := none, year := none,
    brand := none, psa_grade := none, cert_number := none,
    set_name := none, card_number := none,
    rejection_reason := some "Not a PSA card" }

/-- A capability record whose extraction capability returns `out` and
whose other capabilities are unused. -/
def capsWith (out : ExtractOutput) : Capabilities :=
  { googleKeyConfigured := true, tavilyKeyConfigured := false,
    extract := fun _ _ => .ok out,
    lookup := fun _ => .error "unused",
    generateText := fun _ _ _ _ => .error "unused",
    embedText := fun _ => .error "unused",
    embedImage := fun _ => .error "unused",
    writeImageFile := fun _ _ => .ok (),
    persist := fun _ _ _ _ => .error "unused" }

/-- A state whose image has already been ingested. -/
def bufferedState : AgentState := { emptyAgentState with imageBuffer := some "IMGDATA" }

/-- C3 counterexample. A valid card with missing required fields does
**not** get a distinct machine-readable kind: the missing-fields outcome
and the ruled-invalid outcome carry the identical kind
`"image_not_supported"` (they differ only in the reason text), so there
is no distinct `extraction_incomplete` kind in the code. -/
theorem extraction_incomplete_kind_not_distinct :
    (validateNBACard (capsWith extractIncomplete) bufferedState).finalResult.map
        (fun fr => fr.error)
      = (validateNBACard (capsWith extractRejected) bufferedState).finalResult.map
        (fun fr => fr.error) ∧
    (validateNBACard (capsWith extractIncomplete) bufferedState).finalResult.map
        (fun fr => fr.error)
      = some (some "image_not_supported") := by
  with_unfolding_all decide

/-- C3 as amended. Every terminal failure outcome carries a
machine-readable kind together with a reason string, but the taxonomy of
kinds actually used is: `image_processing_failed` for Ingest failures,
`image_not_supported` for a card ruled invalid **and also** for a valid
card with missing required fields (no distinct incomplete kind; the two
cases differ only in the reason string), `validation_failed` for an
extraction-capability error, `embedding_failed` for Embed failures, and
`save_failed` for Persist failures; the Verify and Describe steps never
set a terminal outcome. -/
theorem failure_kinds_taxonomy :
    (∀ st : AgentState, (getCardInfo st).finalResult = st.finalResult ∨
      ∃ r, (getCardInfo st).finalResult
          = some (failureResult "image_processing_failed" r)) ∧
    (∀ (caps : Capabilities) (st : AgentState),
      (validateNBACard caps st).finalResult = st.finalResult ∨
      (∃ r, (validateNBACard caps st).finalResult
          = some (failureResult "image_not_supported" r)) ∨
      (∃ r, (validateNBACard caps st).finalResult
          = some (failureResult "validation_failed" r))) ∧
    (∀ st : AgentState, (certifyCard st).finalResult = st.finalResult) ∧
    (∀ (caps : Capabilities) (st : AgentState),
      (describeCard caps st).finalResult = st.finalResult) ∧
    (∀ (caps : Capabilities) (st : AgentState),
      (generateEmbeddings caps st).finalResult = st.finalResult ∨
      ∃ r, (generateEmbeddings caps st).finalResult
          = some (failureResult "embedding_failed" r)) ∧
    (∀ (caps : Capabilities) (st : AgentState),
      (∃ r, (saveToDatabase caps st).finalResult
          = some (failureResult "save_failed" r)) ∨
      (∃ fr, (saveToDatabase caps st).finalResult = some fr ∧ fr.success = true)) ∧
    (∀ (caps : Capabilities) (st : AgentState) (buf : String) (out : ExtractOutput),
      st.imageBuffer = some buf → caps.googleKeyConfigured = true →
      caps.extract buf st.userHint = .ok out → out.is_valid_psa_card = false →
      (validateNBACard caps st).finalResult
        = some (failureResult "image_not_supported"
            (jsOrStr out.rejection_reason defaultRejection))) ∧
    (∀ (caps : Capabilities) (st : AgentState) (buf : String) (out : ExtractOutput),
      st.imageBuffer = some buf → caps.googleKeyConfigured = true →
      caps.extract buf st.userHint = .ok out → out.is_valid_psa_card = true →
      (truthyStr out.player_name && truthyStr out.year && truthyStr out.brand
        && truthyRat out.psa_grade && truthyStr out.cert_number) = false →
      (validateNBACard caps st).finalResult
        = some (failureResult "image_not_supported" missingFieldsMsg)) := by
  refine ⟨getCardInfo_finalResult_cases, validateNBACard_finalResult_cases,
    certifyCard_finalResult, describeCard_finalResult,
    generateEmbeddings_finalResult_cases, saveToDatabase_finalResult_cases,
    ?_, ?_⟩
  · intro caps st buf out hbuf hkey hext hinv
    unfold validateNBACard
    rw [hbuf]
    simp [hkey, hext, hinv]
  · intro caps st buf out hbuf hkey hext hval hmiss
    unfold validateNBACard
    rw [hbuf]
    simp [hkey, hext, hval, hmiss]

/-- Witness for C3's amended theorem at concrete inputs: a concrete
rejected card and a concrete incomplete card both get kind
`image_not_supported` with their reason strings. -/
theorem failure_kinds_taxonomy_witness :
    (validateNBACard (capsWith extractRejected) bufferedState).finalResult
      = some (failureResult "image_not_supported"
          (jsOrStr extractRejected.rejection_reason defaultRejection)) ∧
    (validateNBACard (capsWith extractIncomplete) bufferedState).finalResult
      = some (failureResult "image_not_supported" missingFieldsMsg) :=
  ⟨failure_kinds_taxonomy.2.2.2.2.2.2.1 (capsWith extractRejected) bufferedState
      "IMGDATA" extractRejected rfl rfl rfl rfl,
   failure_kinds_taxonomy.2.2.2.2.2.2.2 (capsWith extractIncomplete) bufferedState
      "IMGDATA" extractIncomplete rfl rfl rfl rfl (by decide)⟩

/-! ## C10: non-image payloads and the Persist step -/

/-- A payload that does not start with `"data:image/"` never matches the
`saveCardImage` regex. -/
theorem parseDataImageUrl_none_of_not_url (s : String)
    (h : strStartsWith s "data:image/" = false) : parseDataImageUrl s = none := by
  unfold parseDataImageUrl
  rw [h]
  simp

/-- When every image payload in the state fails the `data:image/` regex,
`saveToDatabase` ends in a terminal failure of kind `save_failed`. -/
theorem saveToDatabase_noparse_fails (caps : Capabilities) (st : AgentState)
    (h : ∀ d, st.imageData = some d → parseDataImageUrl d = none) :
    ∃ r, (saveToDatabase caps st).finalResult
        = some (failureResult "save_failed" r) := by
  unfold saveToDatabase saveCatch
  rcases st.validationResult with _ | v
  · exact ⟨_, rfl⟩
  · dsimp only
    split
    · rcases v.card_data with _ | c
      · exact ⟨_, rfl⟩
      · rcases hd : st.imageData with _ | d
        · exact ⟨_, rfl⟩
        · dsimp only
          rcases st.textEmbedding with _ | te <;> rcases st.imageEmbedding with _ | ie
          · exact ⟨_, rfl⟩
          · exact ⟨_, rfl⟩
          · exact ⟨_, rfl⟩
          · dsimp only
            have hparse : saveCardImage caps c.cert_number d
                = .error "Failed to save card image" := by
              unfold saveCardImage
              rw [h d hd]
            rw [hparse]
            exact ⟨_, rfl⟩
    · exact ⟨_, rfl⟩

/-- `getCardInfo` never changes the raw image payload. -/
theorem getCardInfo_imageData (st : AgentState) :
    (getCardInfo st).imageData = st.imageData := by
  unfold getCardInfo getCardInfoCatch
  rcases st.imageData with _ | d
  · rfl
  · rcases st.mimeType with _ | mt
    · rfl
    · dsimp only
      split
      · split <;> rfl
      · rfl

/-- `validateNBACard` never changes the raw image payload. -/
theorem validateNBACard_imageData (caps : Capabilities) (st : AgentState) :
    (validateNBACard caps st).imageData = st.imageData := by
  unfold validateNBACard validateCatch
  rcases st.imageBuffer with _ | buf
  · rfl
  · dsimp only
    split
    · rcases caps.extract buf st.userHint with e | a
      · rfl
      · dsimp only
        split
        · split <;> rfl
        · rfl
    · rfl

/-- `certifyCard` never changes the raw image payload. -/
theorem certifyCard_imageData (st : AgentState) :
    (certifyCard st).imageData = st.imageData := by
  unfold certifyCard certifyCatch
  rcases st.validationResult with _ | v
  · rfl
  · dsimp only
    split
    · rcases v.card_data with _ | c <;> rfl
    · rfl

/-- `describeCard` never changes the raw image payload. -/
theorem describeCard_imageData (caps : Capabilities) (st : AgentState) :
    (describeCard caps st).imageData = st.imageData := by
  unfold describeCard describeCatch
  rcases st.validationResult with _ | v
  · rfl
  · dsimp only
    split
    · rcases v.card_data with _ | c <;> rfl
    · rfl

/-- `generateEmbeddings` never changes the raw image payload. -/
theorem generateEmbeddings_imageData (caps : Capabilities) (st : AgentState) :
    (generateEmbeddings caps st).imageData = st.imageData := by
  unfold generateEmbeddings embedCatch
  rcases st.validationResult with _ | v
  · rfl
  · dsimp only
    split
    · rcases v.card_data with _ | c
      · rfl
      · rcases st.imageBuffer with _ | buf
        · rfl
        · dsimp only
          rcases caps.embedText c with e | te <;> rcases caps.embedImage buf with e2 | ie <;> rfl
    · rfl

/-- `saveToDatabase` never changes the raw image payload. -/
theorem saveToDatabase_imageData (caps : Capabilities) (st : AgentState) :
    (saveToDatabase caps st).imageData = st.imageData := by
  unfold saveToDatabase saveCatch
  rcases st.validationResult with _ | v
  · rfl
  · dsimp only
    split
    · rcases v.card_data with _ | c
      · rfl
      · rcases st.imageData with _ | d
        · rfl
        · dsimp only
          rcases st.textEmbedding with _ | te <;> rcases st.imageEmbedding with _ | ie
          · rfl
          · rfl
          · rfl
          · dsimp only
            rcases saveCardImage caps c.cert_number d with e | p
            · rfl
            · dsimp only
              rcases caps.persist c p te ie with e | u <;> rfl
    · rfl

/-- No node of the graph changes the raw image payload. -/
theorem applyNode_imageData (caps : Capabilities) (name : String) (st : AgentState) :
    (applyNode caps name st).imageData = st.imageData := by
  unfold applyNode
  split
  · exact getCardInfo_imageData st
  split
  · exact validateNBACard_imageData caps st
  split
  · exact certifyCard_imageData st
  split
  · exact describeCard_imageData caps st
  split
  · exact generateEmbeddings_imageData caps st
  split
  · exact saveToDatabase_imageData caps st
  · rfl

/-- The state has no terminal success outcome. -/
def noSuccessOutcome (st : AgentState) : Prop :=
  ∀ fr, st.finalResult = some fr → fr.success = false

/-- Under a non-`data:image/` payload, no node can introduce a terminal
success outcome. -/
theorem applyNode_noSuccess (caps : Capabilities) (name : String) (st : AgentState)
    (himg : ∀ d, st.imageData = some d → strStartsWith d "data:image/" = false)
    (h : noSuccessOutcome st) : noSuccessOutcome (applyNode caps name st) := by
  have hfail : ∀ (k r : String) (o : Option FinalResult),
      o = some (failureResult k r) → ∀ fr, o = some fr → fr.success = false := by
    intro k r o ho fr hfr
    rw [ho] at hfr
    cases hfr
    rfl
  unfold applyNode
  split
  · rcases getCardInfo_finalResult_cases st with hc | ⟨r, hc⟩
    · intro fr hfr; exact h fr (hc ▸ hfr)
    · exact hfail _ _ _ hc
  split
  · rcases validateNBACard_finalResult_cases caps st with hc | ⟨r, hc⟩ | ⟨r, hc⟩
    · intro fr hfr; exact h fr (hc ▸ hfr)
    · exact hfail _ _ _ hc
    · exact hfail _ _ _ hc
  split
  · intro fr hfr; exact h fr ((certifyCard_finalResult st) ▸ hfr)
  split
  · intro fr hfr; exact h fr ((describeCard_finalResult caps st) ▸ hfr)
  split
  · rcases generateEmbeddings_finalResult_cases caps st with hc | ⟨r, hc⟩
    · intro fr hfr; exact h fr (hc ▸ hfr)
    · exact hfail _ _ _ hc
  split
  · obtain ⟨r, hc⟩ := saveToDatabase_noparse_fails caps st
      (fun d hd => parseDataImageUrl_none_of_not_url d (himg d hd))
    exact hfail _ _ _ hc
  · exact h

/-- The driver never produces a terminal success outcome from a state
whose payload is not a `data:image/` URL. -/
theorem runAgent_noSuccess (caps : Capabilities) :
    ∀ (fuel : Nat) (node : String) (st : AgentState),
      (∀ d, st.imageData = some d → strStartsWith d "data:image/" = false) →
      noSuccessOutcome st → noSuccessOutcome (runAgent caps fuel node st).1 := by
  intro fuel
  induction fuel with
  | zero => intro node st _ h; exact h
  | succ n ih =>
    intro node st himg h
    unfold runAgent
    split
    · exact h
    · exact ih (routeNext (applyNode caps node st)) (applyNode caps node st)
        (fun d hd => himg d ((applyNode_imageData caps node st) ▸ hd))
        (applyNode_noSuccess caps node st himg h)

/-- C10. A payload that is not a `data:image/` URL — in particular every
`application/pdf` payload, which the Ingest allow-list accepts — can
never produce a terminal success outcome: (1) Ingest accepts
`application/pdf`; (2) whenever the Persist step runs on such a state it
ends in a terminal failure of kind `save_failed`, because `saveCardImage`
rejects any payload not matching the `data:image/<ext>;base64,` pattern;
(3) a whole pipeline run on such an input never ends in success. -/
theorem non_image_payload_never_succeeds :
    (∀ st d, st.mimeType = some "application/pdf" → st.imageData = some d →
      base64ByteLength (jsSplitSecond d) ≤ ingestMaxSize →
      (getCardInfo st).next = some "validate_nba_card") ∧
    (∀ (caps : Capabilities) (st : AgentState) d,
      st.imageData = some d → strStartsWith d "data:image/" = false →
      ∃ r, (saveToDatabase caps st).finalResult
          = some (failureResult "save_failed" r)) ∧
    (∀ (caps : Capabilities) (st : AgentState),
      st.finalResult = none →
      (∀ d, st.imageData = some d → strStartsWith d "data:image/" = false) →
      ∀ fr, (runPipeline caps st).1.finalResult = some fr → fr.success = false) := by
  refine ⟨?_, ?_, ?_⟩
  · intro st d hmt hd hsize
    have hnot : ¬ (base64ByteLength (jsSplitSecond d) > ingestMaxSize) := by omega
    unfold getCardInfo
    rw [hd, hmt]
    simp only [allowedMimeTypes]
    rw [if_pos (by simp), if_neg hnot]
  · intro caps st d hd hsw
    apply saveToDatabase_noparse_fails
    intro d' hd'
    rw [hd] at hd'
    cases hd'
    exact parseDataImageUrl_none_of_not_url d hsw
  · intro caps st hfr himg fr
    exact runAgent_noSuccess caps 8 "get_card_info" st himg
      (fun fr' hfr' => by rw [hfr] at hfr'; cases hfr') fr

/-- Witness for C10 at concrete inputs: a PDF data URL passes Ingest but
the Persist step fails with kind `save_failed`, and the full run on it
produces no success outcome. -/
theorem non_image_payload_never_succeeds_witness :
    (getCardInfo { emptyAgentState with
        imageData := some "data:application/pdf;base64,AAAA",
        mimeType := some "application/pdf" }).next = some "validate_nba_card" ∧
    (∃ r, (saveToDatabase (capsWith extractRejected)
        { emptyAgentState with
            imageData := some "data:application/pdf;base64,AAAA" }).finalResult
      = some (failureResult "save_failed" r)) :=
  ⟨non_image_payload_never_succeeds.1
      { emptyAgentState with
          imageData := some "data:application/pdf;base64,AAAA",
          mimeType := some "application/pdf" }
      "data:application/pdf;base64,AAAA" rfl rfl (by decide),
   non_image_payload_never_succeeds.2.1 (capsWith extractRejected)
      { emptyAgentState with
          imageData := some "data:application/pdf;base64,AAAA" }
      "data:application/pdf;base64,AAAA" rfl (by decide)⟩

/-! ## C4: rejection terminates before Embed and Persist -/

/-- Unfolding the driver at a successor fuel. -/
theorem runAgent_succ (caps : Capabilities) (n : Nat) (node : String) (st : AgentState) :
    runAgent caps (n + 1) node st
      = if node = "end" then (st, [])
        else
          let st' := applyNode caps node st
          let r := runAgent caps n (routeNext st') st'
          (r.1, node :: r.2) := rfl

/-- One driver step on a non-terminal node. -/
theorem runAgent_step (caps : Capabilities) (n : Nat) (node : String) (st : AgentState)
    (h : ¬ node = "end") :
    runAgent caps (n + 1) node st
      = ((runAgent caps n (routeNext (applyNode caps node st)) (applyNode caps node st)).1,
         node :: (runAgent caps n (routeNext (applyNode caps node st)) (applyNode caps node st)).2) := by
  rw [runAgent_succ, if_neg h]

/-- The driver stops at the terminator. -/
theorem runAgent_end (caps : Capabilities) (n : Nat) (st : AgentState) :
    runAgent caps (n + 1) "end" st = (st, []) := by
  rw [runAgent_succ, if_pos rfl]

/-- Node dispatch, per name. -/
theorem applyNode_ingest (caps : Capabilities) (st : AgentState) :
    applyNode caps "get_card_info" st = getCardInfo st := by
  unfold applyNode
  rw [if_pos rfl]

/-- Node dispatch for the extraction step. -/
theorem applyNode_validate (caps : Capabilities) (st : AgentState) :
    applyNode caps "validate_nba_card" st = validateNBACard caps st := by
  unfold applyNode
  rw [if_neg (by decide), if_pos rfl]

/-- Node dispatch for the certification step. -/
theorem applyNode_certify (caps : Capabilities) (st : AgentState) :
    applyNode caps "certify_card" st = certifyCard st := by
  unfold applyNode
  rw [if_neg (by decide), if_neg (by decide), if_pos rfl]

/-- Node dispatch for the description step. -/
theorem applyNode_describe (caps : Capabilities) (st : AgentState) :
    applyNode caps "describe_card" st = describeCard caps st := by
  unfold applyNode
  rw [if_neg (by decide), if_neg (by decide), if_neg (by decide), if_pos rfl]

/-- Node dispatch for the embedding step. -/
theorem applyNode_embed (caps : Capabilities) (st : AgentState) :
    applyNode caps "generate_embeddings" st = generateEmbeddings caps st := by
  unfold applyNode
  rw [if_neg (by decide), if_neg (by decide), if_neg (by decide), if_neg (by decide),
    if_pos rfl]

/-- Node dispatch for the persistence step. -/
theorem applyNode_persist (caps : Capabilities) (st : AgentState) :
    applyNode caps "save_to_database" st = saveToDatabase caps st := by
  unfold applyNode
  rw [if_neg (by decide), if_neg (by decide), if_neg (by decide), if_neg (by decide),
    if_neg (by decide), if_pos rfl]

/-- C4. For every extraction output marked invalid (under an otherwise
successful Ingest), the pipeline executes exactly `get_card_info` and
`validate_nba_card`: the run's trace never contains the embedding step or
the persistence step, and the terminal outcome is the failure of kind
`image_not_supported` (the code's name for the spec's
`extraction_rejected`) carrying the rejection reason. -/
theorem rejected_card_skips_embed_and_persist
    (caps : Capabilities) (st : AgentState) (d mt : String) (out : ExtractOutput)
    (hid : st.imageData = some d) (hmt : st.mimeType = some mt)
    (hallow : mt ∈ allowedMimeTypes)
    (hsize : base64ByteLength (jsSplitSecond d) ≤ ingestMaxSize)
    (hkey : caps.googleKeyConfigured = true)
    (hext : caps.extract (jsSplitSecond d) st.userHint = .ok out)
    (hinv : out.is_valid_psa_card = false) :
    (runPipeline caps st).2 = ["get_card_info", "validate_nba_card"] ∧
    "generate_embeddings" ∉ (runPipeline caps st).2 ∧
    "save_to_database" ∉ (runPipeline caps st).2 ∧
    (runPipeline caps st).1.finalResult
      = some (failureResult "image_not_supported"
          (jsOrStr out.rejection_reason defaultRejection)) := by
  have h1 : getCardInfo st
      = { st with imageBuffer := some (jsSplitSecond d),
                  currentStep := some "get_card_info_completed",
                  next := some "validate_nba_card" } := by
    unfold getCardInfo
    rw [hid, hmt]
    dsimp only
    rw [if_pos hallow, if_neg (by omega)]
  have h2 : validateNBACard caps (getCardInfo st)
      = { st with imageBuffer := some (jsSplitSecond d),
                  validationResult :=
                    some { is_valid := false, card_data := none, error := none,
                           rejection_reason :=
                             some (jsOrStr out.rejection_reason defaultRejection) },
                  currentStep := some "validate_nba_card_rejected",
                  finalResult :=
                    some (failureResult "image_not_supported"
                      (jsOrStr out.rejection_reason defaultRejection)),
                  next := some "end" } := by
    rw [h1]
    unfold validateNBACard
    dsimp only
    rw [hkey, if_pos rfl, hext]
    dsimp only
    rw [hinv]
    rfl
  have hroute1 : routeNext (getCardInfo st) = "validate_nba_card" := by
    rw [h1]; rfl
  have hroute2 : routeNext (validateNBACard caps (getCardInfo st)) = "end" := by
    rw [h2]; rfl
  have hrun : runPipeline caps st
      = (validateNBACard caps (getCardInfo st), ["get_card_info", "validate_nba_card"]) := by
    unfold runPipeline
    rw [show (8 : Nat) = 7 + 1 from rfl, runAgent_step caps 7 _ st (by decide)]
    rw [applyNode_ingest, hroute1]
    rw [show (7 : Nat) = 6 + 1 from rfl, runAgent_step caps 6 _ _ (by decide)]
    rw [applyNode_validate, hroute2]
    rw [show (6 : Nat) = 5 + 1 from rfl, runAgent_end]
  refine ⟨?_, ?_, ?_, ?_⟩
  · rw [hrun]
  · rw [hrun]; dsimp only; decide
  · rw [hrun]; dsimp only; decide
  · rw [hrun]
    dsimp only
    rw [h2]

/-- Witness for C4 at concrete inputs: a PNG payload whose extraction is
rejected stops after validation. -/
theorem rejected_card_skips_embed_and_persist_witness :
    (runPipeline (capsWith extractRejected)
        { emptyAgentState with imageData := some "data:image/png;base64,AAAA",
                               mimeType := some "image/png" }).2
      = ["get_card_info", "validate_nba_card"] ∧
    (runPipeline (capsWith extractRejected)
        { emptyAgentState with imageData := some "data:image/png;base64,AAAA",
                               mimeType := some "image/png" }).1.finalResult
      = some (failureResult "image_not_supported"
          (jsOrStr extractRejected.rejection_reason defaultRejection)) :=
  ⟨(rejected_card_skips_embed_and_persist (capsWith extractRejected) _
      "data:image/png;base64,AAAA" "image/png" extractRejected
      rfl rfl (by decide) (by decide) rfl rfl rfl).1,
   (rejected_card_skips_embed_and_persist (capsWith extractRejected) _
      "data:image/png;base64,AAAA" "image/png" extractRejected
      rfl rfl (by decide) (by decide) rfl rfl rfl).2.2.2⟩

/-! ## C6: enrichment failure and the fallback description -/

/-- Capabilities whose Tavily lookup throws but whose text generation
succeeds. -/
def lookupFailingCaps : Capabilities :=
  { googleKeyConfigured := true, tavilyKeyConfigured := true,
    extract := fun _ _ => .error "unused",
    lookup := fun _ => .error "tavily down",
    generateText := fun _ _ _ _ => .ok "AI PROSE",
    embedText := fun _ => .ok [1], embedImage := fun _ => .ok [1],
    writeImageFile := fun _ _ => .ok (), persist := fun _ _ _ _ => .ok () }

/-- A validated state that requested web search and has a certification
reference. -/
def webSearchState : AgentState :=
  { validatedState with
      shouldWebSearch := true,
      certificationResult :=
        some { is_certified := true,
               cert_url := some "https://www.psacard.com/cert/12345678",
               error := none } }

/-- C6 counterexample. When only the enrichment lookup throws and the
text-generation capability succeeds, `describeCard` proceeds (non-fatal)
but the description it carries forward is the generated prose, **not**
the deterministic fallback built from the card attributes — contradicting
the claim for the "lookup throws" case. -/
theorem describe_lookup_failure_uses_generated_text :
    lookupFailingCaps.lookup (tavilySearchQuery sampleCard) = .error "tavily down" ∧
    (describeCard lookupFailingCaps webSearchState).description = some "AI PROSE" ∧
    (describeCard lookupFailingCaps webSearchState).description
      ≠ some (buildBaseDescription (some sampleCard)
          (webSearchState.certificationResult.bind (fun r => r.cert_url))) ∧
    (describeCard lookupFailingCaps webSearchState).next = some "generate_embeddings" := by
  refine ⟨rfl, ?_, ?_, ?_⟩ <;> with_unfolding_all decide

/-- When the text-generation capability throws, `describeCard` keeps the
deterministic baseline description (independent of the thrown message),
records the error, and routes on to `generate_embeddings`. -/
theorem describeCard_textgen_error (caps : Capabilities) (st : AgentState)
    (c : PSACard) (em : String)
    (hv : st.validationResult
        = some { is_valid := true, card_data := some c, error := none,
                 rejection_reason := none })
    (hkey : caps.googleKeyConfigured = true)
    (hgen : ∀ b w, caps.generateText c b st.userHint w = .error em) :
    describeCard caps st
      = { st with
          description := some (buildBaseDescription (some c)
            (st.certificationResult.bind (fun r => r.cert_url))),
          webSearchResults := (describeWebStep caps st c).1,
          currentStep := some "describe_card_completed",
          errors := st.errors ++ ((describeWebStep caps st c).2 ++ [em]),
          next := some "generate_embeddings" } := by
  unfold describeCard
  rw [hv]
  dsimp only
  rw [hkey]
  simp only [reduceIte]
  rw [hgen _ _]
  dsimp only
  rw [if_neg (by simp)]

/-- C6 as amended. If the **text-generation** capability throws, the
pipeline still proceeds through the embedding and persistence steps and
ends in a terminal success whose description is the deterministic
fallback `buildBaseDescription` — built purely from the extracted card
attributes and the certification URL derived from them, and independent
of the thrown error message `em` (so two runs with the same failing
capability produce the identical fallback string); if only the lookup
throws, processing also continues non-fatally, but then the description
used is whatever the text-generation capability returns (see the
counterexample). -/
theorem textgen_failure_still_persists_with_fallback
    (caps : Capabilities) (st : AgentState) (d mt em ext b64 : String)
    (te ie : List ℚ) (out : ExtractOutput)
    (hid : st.imageData = some d) (hmt : st.mimeType = some mt)
    (hallow : mt ∈ allowedMimeTypes)
    (hsize : base64ByteLength (jsSplitSecond d) ≤ ingestMaxSize)
    (hkey : caps.googleKeyConfigured = true)
    (hext : caps.extract (jsSplitSecond d) st.userHint = .ok out)
    (hval : out.is_valid_psa_card = true)
    (hcomplete : (truthyStr out.player_name && truthyStr out.year && truthyStr out.brand
        && truthyRat out.psa_grade && truthyStr out.cert_number) = true)
    (hgen : ∀ b w, caps.generateText (extractedCard out) b st.userHint w = .error em)
    (hembT : caps.embedText (extractedCard out) = .ok te)
    (hembI : caps.embedImage (jsSplitSecond d) = .ok ie)
    (hparse : parseDataImageUrl d = some (ext, b64))
    (hwrite : caps.writeImageFile
        ("/cards/" ++ (extractedCard out).cert_number ++ "." ++ ext) b64 = .ok ())
    (hpersist : caps.persist (extractedCard out)
        ("/cards/" ++ (extractedCard out).cert_number ++ "." ++ ext) te ie = .ok ()) :
    (runPipeline caps st).2
      = ["get_card_info", "validate_nba_card", "certify_card", "describe_card",
         "generate_embeddings", "save_to_database"] ∧
    (runPipeline caps st).1.description
      = some (buildBaseDescription (some (extractedCard out))
          (some ("https://www.psacard.com/cert/" ++ (extractedCard out).cert_number))) ∧
    (∃ fr, (runPipeline caps st).1.finalResult = some fr ∧ fr.success = true ∧
      fr.description = some (buildBaseDescription (some (extractedCard out))
          (some ("https://www.psacard.com/cert/" ++ (extractedCard out).cert_number)))) := by
  have h1 : getCardInfo st
      = { st with imageBuffer := some (jsSplitSecond d),
                  currentStep := some "get_card_info_completed",
                  next := some "validate_nba_card" } := by
    unfold getCardInfo
    rw [hid, hmt]
    dsimp only
    rw [if_pos hallow, if_neg (by omega)]
  have h2 : validateNBACard caps (getCardInfo st)
      = { st with imageBuffer := some (jsSplitSecond d),
                  validationResult :=
                    some { is_valid := true, card_data := some (extractedCard out),
                           error := none, rejection_reason := none },
                  currentStep := some "validate_nba_card_completed",
                  next := some "certify_card" } := by
    rw [h1]
    unfold validateNBACard
    dsimp only
    rw [hkey, if_pos rfl, hext]
    dsimp only
    rw [hval]
    simp only [reduceIte]
    rw [hcomplete]
    simp only [reduceIte]
  have h3 : certifyCard (validateNBACard caps (getCardInfo st))
      = { st with imageBuffer := some (jsSplitSecond d),
                  validationResult :=
                    some { is_valid := true, card_data := some (extractedCard out),
                           error := none, rejection_reason := none },
                  certificationResult :=
                    some { is_certified := true,
                           cert_url := some ("https://www.psacard.com/cert/"
                             ++ (extractedCard out).cert_number),
                           error := none },
                  currentStep := some "certify_card_completed",
                  next := some "describe_card" } := by
    rw [h2]
    rfl
  have h4 : describeCard caps (certifyCard (validateNBACard caps (getCardInfo st)))
      = { certifyCard (validateNBACard caps (getCardInfo st)) with
          description := some (buildBaseDescription (some (extractedCard out))
            (some ("https://www.psacard.com/cert/" ++ (extractedCard out).cert_number))),
          webSearchResults :=
            (describeWebStep caps (certifyCard (validateNBACard caps (getCardInfo st)))
              (extractedCard out)).1,
          currentStep := some "describe_card_completed",
          errors := st.errors
            ++ ((describeWebStep caps (certifyCard (validateNBACard caps (getCardInfo st)))
                  (extractedCard out)).2 ++ [em]),
          next := some "generate_embeddings" } := by
    have hv3 : (certifyCard (validateNBACard caps (getCardInfo st))).validationResult
        = some { is_valid := true, card_data := some (extractedCard out),
                 error := none, rejection_reason := none } := by
      rw [h3]
    have hg3 : ∀ b w, caps.generateText (extractedCard out) b
        (certifyCard (validateNBACard caps (getCardInfo st))).userHint w
        = .error em := by
      intro b w
      rw [h3]
      exact hgen b w
    rw [describeCard_textgen_error caps
      (certifyCard (validateNBACard caps (getCardInfo st)))
      (extractedCard out) em hv3 hkey hg3]
    rw [h3]
    rfl
  have h5 : generateEmbeddings caps
        (describeCard caps (certifyCard (validateNBACard caps (getCardInfo st))))
      = { describeCard caps (certifyCard (validateNBACard caps (getCardInfo st))) with
          textEmbedding := some te, imageEmbedding := some ie,
          currentStep := some "generate_embeddings_completed",
          next := some "save_to_database" } := by
    rw [h4, h3]
    unfold generateEmbeddings
    dsimp only
    rw [hembT, hembI]
    rfl
  have hsci : saveCardImage caps (extractedCard out).cert_number d
      = .ok ("/cards/" ++ (extractedCard out).cert_number ++ "." ++ ext) := by
    unfold saveCardImage
    rw [hparse]
    dsimp only
    rw [hwrite]
  have h6 : saveToDatabase caps
        (generateEmbeddings caps
          (describeCard caps (certifyCard (validateNBACard caps (getCardInfo st)))))
      = { generateEmbeddings caps
            (describeCard caps (certifyCard (validateNBACard caps (getCardInfo st)))) with
          imagePath := some ("/cards/" ++ (extractedCard out).cert_number ++ "." ++ ext),
          finalResult := some
            { success := true, card := some (extractedCard out),
              description := some (buildBaseDescription (some (extractedCard out))
                (some ("https://www.psacard.com/cert/"
                  ++ (extractedCard out).cert_number))),
              imagePath := some ("/cards/" ++ (extractedCard out).cert_number ++ "." ++ ext),
              syntheticDocumentPath := st.syntheticDocumentPath,
              syntheticCardData := st.syntheticCardData,
              audioNarrationPath := st.audioNarrationPath,
              error := none, reason := none },
          currentStep := some "save_to_database_completed",
          next := some "end" } := by
    rw [h5, h4, h3]
    unfold saveToDatabase
    dsimp only
    rw [hid]
    dsimp only
    rw [hsci]
    dsimp only
    rw [hpersist]
    rfl
  have hr1 : routeNext (getCardInfo st) = "validate_nba_card" := by rw [h1]; rfl
  have hr2 : routeNext (validateNBACard caps (getCardInfo st)) = "certify_card" := by
    rw [h2]; rfl
  have hr3 : routeNext (certifyCard (validateNBACard caps (getCardInfo st)))
      = "describe_card" := by rw [h3]; rfl
  have hr4 : routeNext (describeCard caps
        (certifyCard (validateNBACard caps (getCardInfo st))))
      = "generate_embeddings" := by rw [h4]; rfl
  have hr5 : routeNext (generateEmbeddings caps
        (describeCard caps (certifyCard (validateNBACard caps (getCardInfo st)))))
      = "save_to_database" := by rw [h5]; rfl
  have hr6 : routeNext (saveToDatabase caps
        (generateEmbeddings caps
          (describeCard caps (certifyCard (validateNBACard caps (getCardInfo st))))))
      = "end" := by rw [h6]; rfl
  have hrun : runPipeline caps st
      = (saveToDatabase caps
          (generateEmbeddings caps
            (describeCard caps (certifyCard (validateNBACard caps (getCardInfo st))))),
         ["get_card_info", "validate_nba_card", "certify_card", "describe_card",
          "generate_embeddings", "save_to_database"]) := by
    unfold runPipeline
    rw [show (8 : Nat) = 7 + 1 from rfl, runAgent_step caps 7 _ st (by decide),
      applyNode_ingest, hr1]
    rw [show (7 : Nat) = 6 + 1 from rfl, runAgent_step caps 6 _ _ (by decide),
      applyNode_validate, hr2]
    rw [show (6 : Nat) = 5 + 1 from rfl, runAgent_step caps 5 _ _ (by decide),
      applyNode_certify, hr3]
    rw [show (5 : Nat) = 4 + 1 from rfl, runAgent_step caps 4 _ _ (by decide),
      applyNode_describe, hr4]
    rw [show (4 : Nat) = 3 + 1 from rfl, runAgent_step caps 3 _ _ (by decide),
      applyNode_embed, hr5]
    rw [show (3 : Nat) = 2 + 1 from rfl, runAgent_step caps 2 _ _ (by decide),
      applyNode_persist, hr6]
    rw [show (2 : Nat) = 1 + 1 from rfl, runAgent_end]
  refine ⟨?_, ?_, ?_⟩
  · rw [hrun]
  · rw [hrun]
    dsimp only
    rw [h6]
    dsimp only
    rw [h5]
    dsimp only
    rw [h4]
  · rw [hrun]
    dsimp only
    rw [h6]
    exact ⟨_, rfl, rfl, rfl⟩

/-- A complete, valid extraction output. -/
def extractComplete : ExtractOutput :=
  { is_valid_psa_card := true, player_name := some "LeBron James",
    year := some "2003-04", brand := some "Topps", psa_grade := some 10,
    cert_number := some "12345678", set_name := none, card_number := none,
    rejection_reason := none }

/-- Capabilities whose text generation throws but everything else works. -/
def textgenFailingCaps : Capabilities :=
  { googleKeyConfigured := true, tavilyKeyConfigured := false,
    extract := fun _ _ => .ok extractComplete,
    lookup := fun _ => .error "unused",
    generateText := fun _ _ _ _ => .error "gemini down",
    embedText := fun _ => .ok [1, 2], embedImage := fun _ => .ok [3],
    writeImageFile := fun _ _ => .ok (), persist := fun _ _ _ _ => .ok () }

/-- A fresh pipeline input holding a PNG data URL. -/
def pngState : AgentState :=
  { emptyAgentState with imageData := some "data:image/png;base64,AAAA",
                         mimeType := some "image/png" }

/-- Witness for C6's amended theorem at concrete inputs. -/
theorem textgen_failure_still_persists_with_fallback_witness :
    (runPipeline textgenFailingCaps pngState).2
      = ["get_card_info", "validate_nba_card", "certify_card", "describe_card",
         "generate_embeddings", "save_to_database"] ∧
    (runPipeline textgenFailingCaps pngState).1.description
      = some (buildBaseDescription (some (extractedCard extractComplete))
          (some ("https://www.psacard.com/cert/"
            ++ (extractedCard extractComplete).cert_number))) :=
  ⟨(textgen_failure_still_persists_with_fallback textgenFailingCaps pngState
      "data:image/png;base64,AAAA" "image/png" "gemini down" "png" "AAAA" [1, 2] [3]
      extractComplete rfl rfl (by decide) (by decide) rfl rfl rfl (by decide)
      (fun _ _ => rfl) rfl rfl (by decide) rfl rfl).1,
   (textgen_failure_still_persists_with_fallback textgenFailingCaps pngState
      "data:image/png;base64,AAAA" "image/png" "gemini down" "png" "AAAA" [1, 2] [3]
      extractComplete rfl rfl (by decide) (by decide) rfl rfl rfl (by decide)
      (fun _ _ => rfl) rfl rfl (by decide) rfl rfl).2.1⟩

/-! ## C1: the hybrid search algorithm -/

/-- The image-modality score of an identifier within the image result
set, 0 when the identifier is absent (the "fill missing with 0" part of
the merge specification). -/
def imageScoreFor (im : List QueryMatch) (id : String) : ℚ :=
  match im.find? (fun m => m.id = id) with
  | some m => m.score.getD 0
  | none => 0

/-- The merge described by the specification: one entry per identifier —
text matches first (insertion order of the map), carrying their text
score and the image score of the same identifier (0 when missing), then
the image-only matches with text score 0 — each entry's combined score
the weighted sum. -/
def mergeBySpec (tm im : List QueryMatch) (textWeight imageWeight : ℚ) :
    List SearchResult :=
  tm.filterMap (fun mt => mt.metadata.map (fun md =>
    { card := psaCardOfMetadata md, image_path := md.image_path,
      similarity_score :=
        textWeight * mt.score.getD 0 + imageWeight * imageScoreFor im mt.id,
      text_score := mt.score.getD 0,
      image_score := imageScoreFor im mt.id }))
  ++ (im.filter (fun mi => ¬ tm.any (fun mt => mt.id = mi.id))).filterMap
    (fun mi => mi.metadata.map (fun md =>
      { card := psaCardOfMetadata md, image_path := md.image_path,
        similarity_score := textWeight * 0 + imageWeight * mi.score.getD 0,
        text_score := 0, image_score := mi.score.getD 0 }))

/-- The specification's search algorithm (the claim's wording): query
each index independently for `2 * topK` nearest neighbours under the
modality-appropriate vector and the same filter, merge by identifier
filling missing scores with 0, combine by weighted sum, sort descending
(stable), truncate to `topK`. -/
def hybridSearchSpec (simT simI : List ℚ → List ℚ → ℚ) (st : EngineState)
    (qt qi : List ℚ) (topK : Nat) (textWeight imageWeight : ℚ)
    (fs : Option SearchFilters) : List SearchResult :=
  let f := buildFilter fs
  let tm := queryIndex simT st.textIndex qt (2 * topK) f
  let im := queryIndex simI st.imageIndex qi (2 * topK) f
  (sortBySimilarityDesc (mergeBySpec tm im textWeight imageWeight)).take topK

/-- The map entry created for a text match carrying metadata. -/
def textEntry (m : QueryMatch) : Option (String × SearchResult) :=
  m.metadata.map (fun md =>
    (m.id, { card := psaCardOfMetadata md, image_path := md.image_path,
             similarity_score := 0, text_score := m.score.getD 0, image_score := 0 }))

/-- The map entry created for an image-only match carrying metadata. -/
def imageEntry (m : QueryMatch) : Option (String × SearchResult) :=
  m.metadata.map (fun md =>
    (m.id, { card := psaCardOfMetadata md, image_path := md.image_path,
             similarity_score := 0, text_score := 0, image_score := m.score.getD 0 }))

/-- The in-place image-score update a map entry receives from the image
result set. -/
def findUpd (im : List QueryMatch) (p : String × SearchResult) : String × SearchResult :=
  match im.find? (fun m => m.id = p.1) with
  | some m => (p.1, { p.2 with image_score := m.score.getD 0 })
  | none => p

/-- `Map.set` on an absent key appends. -/
theorem mapSet_append (acc : List (String × SearchResult)) (k : String) (v : SearchResult)
    (h : ∀ p ∈ acc, p.1 ≠ k) : mapSet acc k v = acc ++ [(k, v)] := by
  unfold mapSet
  rw [if_neg]
  intro hc
  obtain ⟨p, hp, hpk⟩ := List.any_eq_true.mp hc
  exact h p hp (by simpa using hpk)

/-- The first merge pass over text matches with pairwise-distinct
identifiers, none of which is already in the map, appends one entry per
metadata-carrying match, in order. -/
theorem foldl_textMergeStep (tm : List QueryMatch) :
    ∀ acc : List (String × SearchResult),
      (∀ m ∈ tm, ∀ p ∈ acc, p.1 ≠ m.id) → (tm.map (fun m => m.id)).Nodup →
      tm.foldl textMergeStep acc = acc ++ tm.filterMap textEntry := by
  induction tm with
  | nil => intro acc _ _; simp
  | cons m rest ih =>
    intro acc hdisj hnodup
    rw [List.foldl_cons]
    rcases hm : m.metadata with _ | md
    · have hstep : textMergeStep acc m = acc := by
        unfold textMergeStep
        rw [hm]
      rw [hstep, ih acc (fun m' hm' => hdisj m' (List.mem_cons_of_mem m hm'))
        (by simpa using (List.nodup_cons.mp (by simpa using hnodup)).2)]
      have hte : textEntry m = none := by unfold textEntry; rw [hm]; rfl
      rw [List.filterMap_cons, hte]
    · have hstep : textMergeStep acc m
          = acc ++ [(m.id, ⟨psaCardOfMetadata md, md.image_path, 0, m.score.getD 0, 0⟩)] := by
        unfold textMergeStep
        rw [hm]
        dsimp only
        exact mapSet_append acc m.id _ (fun p hp => hdisj m (List.mem_cons_self m rest) p hp)
      have hmid : m.id ∉ rest.map (fun m' => m'.id) :=
        (List.nodup_cons.mp (by simpa using hnodup)).1
      rw [hstep, ih _ ?_ (by simpa using (List.nodup_cons.mp (by simpa using hnodup)).2)]
      · have hte : textEntry m
            = some (m.id, ⟨psaCardOfMetadata md, md.image_path, 0, m.score.getD 0, 0⟩) := by
          unfold textEntry
          rw [hm]
          rfl
        rw [List.filterMap_cons, hte, List.append_assoc]
        rfl
      · intro m' hm' p hp
        rcases List.mem_append.mp hp with hp' | hp'
        · exact hdisj m' (List.mem_cons_of_mem m hm') p hp'
        · have hp2 : p = (m.id, _) := List.mem_singleton.mp hp'
          rw [hp2]
          dsimp only
          intro hc
          exact hmid (by rw [hc]; exact List.mem_map_of_mem _ hm')

/-- The in-place update never changes the key. -/
theorem updOne_fst (m : QueryMatch) (p : String × SearchResult) :
    (updOne m p).1 = p.1 := by
  unfold updOne
  split <;> rfl

/-- `findUpd` over an empty image result set is the identity. -/
theorem findUpd_nil (p : String × SearchResult) : findUpd [] p = p := rfl

/-- Key membership tests see through the in-place update. -/
theorem any_map_updOne (acc : List (String × SearchResult)) (m : QueryMatch) (x : String) :
    (acc.map (updOne m)).any (fun p => p.1 = x) = acc.any (fun p => p.1 = x) := by
  rw [List.any_map]
  congr 1
  funext p
  simp [Function.comp, updOne_fst]

/-- The second merge pass over image matches with pairwise-distinct,
metadata-carrying matches: each existing map entry receives the image
score of its identifier (unchanged when absent), and the image-only
matches are appended in order. -/
theorem foldl_imageMergeStep (im : List QueryMatch) :
    ∀ acc : List (String × SearchResult),
      (im.map (fun m => m.id)).Nodup → (∀ m ∈ im, m.metadata.isSome = true) →
      im.foldl imageMergeStep acc
        = acc.map (findUpd im)
          ++ (im.filter (fun mi => !(acc.any (fun p => p.1 = mi.id)))).filterMap imageEntry := by
  induction im with
  | nil =>
    intro acc _ _
    have hmapid : List.map (findUpd []) acc = acc :=
      (List.map_congr_left (fun p _ => findUpd_nil p)).trans (List.map_id acc)
    simp [hmapid]
  | cons m rest ih =>
    intro acc hnodup hsome
    obtain ⟨md, hm⟩ := Option.isSome_iff_exists.mp (hsome m (List.mem_cons_self m rest))
    have hmid : m.id ∉ rest.map (fun m' => m'.id) :=
      (List.nodup_cons.mp (by simpa using hnodup)).1
    have hnodup' : (rest.map (fun m' => m'.id)).Nodup :=
      (List.nodup_cons.mp (by simpa using hnodup)).2
    have hsome' : ∀ m' ∈ rest, m'.metadata.isSome = true :=
      fun m' h => hsome m' (List.mem_cons_of_mem m h)
    have hfind_rest_mid : rest.find? (fun mm => mm.id = m.id) = none := by
      rw [List.find?_eq_none]
      intro mm hmm hmmid
      apply hmid
      have : mm.id = m.id := by simpa using hmmid
      rw [← this]
      exact List.mem_map_of_mem _ hmm
    rw [List.foldl_cons]
    by_cases hhas : mapHas acc m.id = true
    · have hstep : imageMergeStep acc m = acc.map (updOne m) := by
        unfold imageMergeStep
        rw [hm]
        dsimp only
        rw [hhas]
        rfl
      rw [hstep, ih (acc.map (updOne m)) hnodup' hsome']
      congr 1
      · rw [List.map_map]
        apply List.map_congr_left
        intro p _
        by_cases hp : p.1 = m.id
        · have hfr : rest.find? (fun mm => mm.id = p.1) = none := by
            rw [hp]
            exact hfind_rest_mid
          have hfc : (m :: rest).find? (fun mm => mm.id = p.1) = some m := by
            rw [List.find?_cons_of_pos]
            simp [hp]
          simp only [Function.comp]
          unfold updOne findUpd
          rw [if_pos hp]
          dsimp only
          rw [hp, hfind_rest_mid, ← hp, hfc]
        · have hfc : (m :: rest).find? (fun mm => mm.id = p.1)
              = rest.find? (fun mm => mm.id = p.1) := by
            rw [List.find?_cons_of_neg]
            simp
            intro hc
            exact hp hc.symm
          simp only [Function.comp]
          unfold updOne findUpd
          rw [if_neg hp, hfc]
      · have hmfilter : (m :: rest).filter (fun mi => !(acc.any (fun p => p.1 = mi.id)))
            = rest.filter (fun mi => !(acc.any (fun p => p.1 = mi.id))) := by
          rw [List.filter_cons_of_neg]
          unfold mapHas at hhas
          rw [hhas]
          decide
        rw [hmfilter]
        apply congrArg
        apply List.filter_congr
        intro mi _
        rw [any_map_updOne]
    · have hanyf : mapHas acc m.id = false := by
        cases hx : mapHas acc m.id
        · rfl
        · exact absurd hx hhas
      have hstep : imageMergeStep acc m
          = acc ++ [(m.id, ⟨psaCardOfMetadata md, md.image_path, 0, 0, m.score.getD 0⟩)] := by
        unfold imageMergeStep
        rw [hm]
        dsimp only
        rw [hanyf]
        rfl
      have hkey : ∀ p ∈ acc, p.1 ≠ m.id := by
        intro p hp hc
        apply hhas
        unfold mapHas
        rw [List.any_eq_true]
        exact ⟨p, hp, by simpa using hc⟩
      rw [hstep, ih _ hnodup' hsome']
      rw [List.map_append]
      have hlast : [(m.id, (⟨psaCardOfMetadata md, md.image_path, 0, 0,
            m.score.getD 0⟩ : SearchResult))].map (findUpd rest)
          = [(m.id, ⟨psaCardOfMetadata md, md.image_path, 0, 0, m.score.getD 0⟩)] := by
        rw [List.map_singleton]
        unfold findUpd
        dsimp only
        rw [hfind_rest_mid]
      have hmaps : acc.map (findUpd rest) = acc.map (findUpd (m :: rest)) := by
        apply List.map_congr_left
        intro p hp
        unfold findUpd
        have hfc : (m :: rest).find? (fun mm => mm.id = p.1)
            = rest.find? (fun mm => mm.id = p.1) := by
          rw [List.find?_cons_of_neg]
          simp only [decide_eq_true_eq]
          intro hc
          exact hkey p hp hc.symm
        rw [hfc]
      have hnew : rest.filter (fun mi =>
            !((acc ++ [(m.id, (⟨psaCardOfMetadata md, md.image_path, 0, 0,
                m.score.getD 0⟩ : SearchResult))]).any (fun p => p.1 = mi.id)))
          = rest.filter (fun mi => !(acc.any (fun p => p.1 = mi.id))) := by
        apply List.filter_congr
        intro mi hmi
        rw [List.any_append]
        have hone : ([(m.id, (⟨psaCardOfMetadata md, md.image_path, 0, 0,
              m.score.getD 0⟩ : SearchResult))]).any (fun p => p.1 = mi.id) = false := by
          simp only [List.any_cons, List.any_nil, Bool.or_false, decide_eq_false_iff_not]
          intro hc
          apply hmid
          rw [hc]
          exact List.mem_map_of_mem _ hmi
        rw [hone, Bool.or_false]
      have hmhead : (m :: rest).filter (fun mi => !(acc.any (fun p => p.1 = mi.id)))
          = m :: rest.filter (fun mi => !(acc.any (fun p => p.1 = mi.id))) := by
        rw [List.filter_cons_of_pos]
        unfold mapHas at hanyf
        rw [hanyf]
        rfl
      have him : imageEntry m
          = some (m.id, ⟨psaCardOfMetadata md, md.image_path, 0, 0, m.score.getD 0⟩) := by
        unfold imageEntry
        rw [hm]
        rfl
      rw [hlast, hmaps, hnew, hmhead, List.filterMap_cons, him, List.append_assoc,
        List.singleton_append]

/-- Every match a model index query returns carries metadata
(`includeMetadata: true`). -/
theorem queryIndex_metadata_isSome (sim : List ℚ → List ℚ → ℚ) (idx : VecIndex)
    (vec : List ℚ) (topK : Nat) (f : Option MetadataFilter) :
    ∀ m ∈ queryIndex sim idx vec topK f, m.metadata.isSome = true := by
  intro m hm
  unfold queryIndex at hm
  have hm2 := List.mem_of_mem_take hm
  unfold sortByScoreDesc at hm2
  have hm3 := (List.perm_insertionSort _ _).mem_iff.mp hm2
  obtain ⟨e, _, he⟩ := List.mem_map.mp hm3
  rw [← he]
  rfl

/-- A model index query over an index with pairwise-distinct ids returns
matches with pairwise-distinct ids. -/
theorem queryIndex_ids_nodup (sim : List ℚ → List ℚ → ℚ) (idx : VecIndex)
    (vec : List ℚ) (topK : Nat) (f : Option MetadataFilter)
    (h : (idx.map (fun e => e.id)).Nodup) :
    ((queryIndex sim idx vec topK f).map (fun m => m.id)).Nodup := by
  have hbase : (((idx.filter (fun e => filterAccept f e.metadata)).map
      (fun e => (⟨e.id, some (sim vec e.values), some e.metadata⟩ : QueryMatch))).map
      (fun m => m.id)).Nodup := by
    rw [List.map_map]
    exact ((List.filter_sublist idx).map (fun e => e.id)).nodup h
  have hsorted : ((sortByScoreDesc ((idx.filter (fun e => filterAccept f e.metadata)).map
      (fun e => (⟨e.id, some (sim vec e.values), some e.metadata⟩ : QueryMatch)))).map
      (fun m => m.id)).Nodup := by
    unfold sortByScoreDesc
    exact (((List.perm_insertionSort _ _).map (fun m : QueryMatch => m.id)).nodup_iff).mpr hbase
  unfold queryIndex
  exact ((List.take_sublist _ _).map (fun m : QueryMatch => m.id)).nodup hsorted

/-- Key membership in the text-built map coincides with id membership in
the text result set. -/
theorem any_key_filterMap_textEntry (tm : List QueryMatch) (x : String)
    (h : ∀ m ∈ tm, m.metadata.isSome = true) :
    (tm.filterMap textEntry).any (fun p => p.1 = x)
      = tm.any (fun mt => mt.id = x) := by
  induction tm with
  | nil => rfl
  | cons m rest ih =>
    obtain ⟨md, hm⟩ := Option.isSome_iff_exists.mp (h m (List.mem_cons_self m rest))
    have hte : textEntry m
        = some (m.id, ⟨psaCardOfMetadata md, md.image_path, 0, m.score.getD 0, 0⟩) := by
      unfold textEntry
      rw [hm]
      rfl
    rw [List.filterMap_cons, hte, List.any_cons, List.any_cons,
      ih (fun m' h' => h m' (List.mem_cons_of_mem m h'))]

/-- The merged value stored for a text match: its image score is filled
from the image results when present. -/
theorem findUpd_snd (im : List QueryMatch) (p : String × SearchResult)
    (h : p.2.image_score = 0) :
    (findUpd im p).2 = { p.2 with image_score := imageScoreFor im p.1 } := by
  unfold findUpd imageScoreFor
  cases hf : im.find? (fun m => m.id = p.1) with
  | some m => rfl
  | none =>
    obtain ⟨a, b⟩ := p
    obtain ⟨c, ip, sc, t, ig⟩ := b
    dsimp only at h ⊢
    rw [h]

/-- C1 as amended. For every pair of query embeddings, every `topK ≥ 1`,
every pair of **nonzero** weights, and every optional filter set (over
indexes with pairwise-distinct ids, as Pinecone guarantees),
`hybridSearch` computes exactly the specification's algorithm: query each
index independently for `2 * topK` nearest neighbours under the
modality-appropriate vector and the same filter, merge by identifier
filling the missing modality's score with 0, combine each entry as
`textWeight * text_score + imageWeight * image_score`, sort descending
(stable), truncate to `topK`.  (A zero weight is replaced by its default
— see the counterexample.) -/
theorem hybridSearch_matches_spec (simT simI : List ℚ → List ℚ → ℚ)
    (st : EngineState) (qt qi : List ℚ) (k : Nat) (wT wI : ℚ)
    (fs : Option SearchFilters)
    (hk : 1 ≤ k) (hwT : wT ≠ 0) (hwI : wI ≠ 0)
    (hT : (st.textIndex.map (fun e => e.id)).Nodup)
    (hI : (st.imageIndex.map (fun e => e.id)).Nodup) :
    hybridSearch simT simI st
      { top_k := some k, text_weight := some wT, image_weight := some wI, filters := fs }
      qt qi
      = hybridSearchSpec simT simI st qt qi k wT wI fs := by
  unfold hybridSearch hybridSearchSpec
  dsimp only
  rw [show jsOrNat (some k) 10 = k from by
    simp only [jsOrNat]; rw [if_neg (by omega)]]
  rw [show jsOrRat (some wT) (3/5) = wT from by
    simp only [jsOrRat]; rw [if_neg hwT]]
  rw [show jsOrRat (some wI) (2/5) = wI from by
    simp only [jsOrRat]; rw [if_neg hwI]]
  rw [show k * 2 = 2 * k from Nat.mul_comm k 2]
  have htmS := queryIndex_metadata_isSome simT st.textIndex qt (2 * k) (buildFilter fs)
  have himS := queryIndex_metadata_isSome simI st.imageIndex qi (2 * k) (buildFilter fs)
  have htmN := queryIndex_ids_nodup simT st.textIndex qt (2 * k) (buildFilter fs) hT
  have himN := queryIndex_ids_nodup simI st.imageIndex qi (2 * k) (buildFilter fs) hI
  rw [foldl_textMergeStep _ [] (fun m _ p hp => absurd hp (List.not_mem_nil p)) htmN,
    List.nil_append,
    foldl_imageMergeStep _ _ himN himS]
  suffices hlists :
      ((((queryIndex simT st.textIndex qt (2 * k) (buildFilter fs)).filterMap textEntry).map
          (findUpd (queryIndex simI st.imageIndex qi (2 * k) (buildFilter fs)))
        ++ ((queryIndex simI st.imageIndex qi (2 * k) (buildFilter fs)).filter (fun mi =>
            !(((queryIndex simT st.textIndex qt (2 * k) (buildFilter fs)).filterMap
                textEntry).any (fun p => p.1 = mi.id)))).filterMap imageEntry).map
        (fun p => p.2)).map
        (fun r => { r with similarity_score := r.text_score * wT + r.image_score * wI })
      = mergeBySpec (queryIndex simT st.textIndex qt (2 * k) (buildFilter fs))
          (queryIndex simI st.imageIndex qi (2 * k) (buildFilter fs)) wT wI by
    rw [hlists]
  set tm := queryIndex simT st.textIndex qt (2 * k) (buildFilter fs) with htm
  set im := queryIndex simI st.imageIndex qi (2 * k) (buildFilter fs) with him
  unfold mergeBySpec
  rw [List.map_append, List.map_append]
  congr 1
  · rw [List.map_map, List.map_map, List.map_filterMap]
    congr 1
    funext m
    rcases hmm : m.metadata with _ | md
    · simp [textEntry, hmm]
    · have hte : textEntry m
          = some (m.id, ⟨psaCardOfMetadata md, md.image_path, 0, m.score.getD 0, 0⟩) := by
        unfold textEntry
        rw [hmm]
        rfl
      rw [hte]
      unfold Function.comp
      dsimp only
      refine congrArg some ?_
      dsimp only
      rw [findUpd_snd im
        (m.id, ⟨psaCardOfMetadata md, md.image_path, 0, m.score.getD 0, 0⟩) rfl]
      dsimp only
      simp only [SearchResult.mk.injEq, and_true, true_and]
      ring
  · have hfe : im.filter (fun mi => !((tm.filterMap textEntry).any (fun p => p.1 = mi.id)))
        = im.filter (fun mi => ¬ tm.any (fun mt => mt.id = mi.id)) := by
      apply List.filter_congr
      intro mi _
      rw [any_key_filterMap_textEntry tm mi.id htmS]
      cases h : tm.any (fun mt => mt.id = mi.id) <;> simp [h]
    rw [hfe, List.map_map, List.map_filterMap]
    congr 1
    funext mi
    rcases hmm : mi.metadata with _ | md
    · simp [imageEntry, hmm]
    · have hie : imageEntry mi
          = some (mi.id, ⟨psaCardOfMetadata md, md.image_path, 0, 0, mi.score.getD 0⟩) := by
        unfold imageEntry
        rw [hmm]
        rfl
      rw [hie]
      unfold Function.comp
      dsimp only
      refine congrArg some ?_
      dsimp only
      simp only [SearchResult.mk.injEq, and_true, true_and]
      ring

/-- C1 counterexample. At image weight `1` and text weight `0` the code
does **not** implement the specification's combination: JS `||`
defaulting replaces the supplied `0` text weight with `0.6`, so the
similarity scores (and here even the membership cut at `topK = 1`)
diverge from `textWeight * text_score + imageWeight * image_score`. -/
theorem hybridSearch_zero_weight_diverges_from_spec :
    hybridSearch headSim headSim c2Engine
      { top_k := some 1, text_weight := some 0, image_weight := some 1, filters := none } [] []
    ≠ hybridSearchSpec headSim headSim c2Engine [] [] 1 0 1 none := by
  with_unfolding_all decide

/-- Witness: the refinement theorem applied at a concrete engine with
`topK = 2` and nonzero weights `1` and `1/2`. -/
theorem hybridSearch_matches_spec_witness :
    (1 ≤ 2 ∧ (1 : ℚ) ≠ 0 ∧ (1/2 : ℚ) ≠ 0 ∧
      (c2Engine.textIndex.map (fun e => e.id)).Nodup ∧
      (c2Engine.imageIndex.map (fun e => e.id)).Nodup) ∧
    hybridSearch headSim headSim c2Engine
      { top_k := some 2, text_weight := some 1, image_weight := some (1/2), filters := none } [] []
    = hybridSearchSpec headSim headSim c2Engine [] [] 2 1 (1/2) none :=
  ⟨⟨by decide, by with_unfolding_all decide, by with_unfolding_all decide,
    by with_unfolding_all decide, by with_unfolding_all decide⟩,
   hybridSearch_matches_spec headSim headSim c2Engine [] [] 2 1 (1/2) none
     (by decide) (by with_unfolding_all decide) (by with_unfolding_all decide)
     (by with_unfolding_all decide) (by with_unfolding_all decide)⟩

/-! ## C5: upsert semantics — storing an existing identifier overwrites -/

/-- After an upsert, the entries carrying the upserted id are exactly the
upserted entry (given distinct ids beforehand). -/
theorem upsertEntry_filter_self (idx : VecIndex) (e : IndexEntry)
    (h : (idx.map (fun x => x.id)).Nodup) :
    (upsertEntry idx e).filter (fun x => x.id = e.id) = [e] := by
  unfold upsertEntry
  by_cases hany : idx.any (fun x => x.id = e.id)
  · rw [if_pos hany]
    induction idx with
    | nil => simp at hany
    | cons a t ih =>
      rw [List.map_cons, List.nodup_cons] at h
      by_cases hae : a.id = e.id
      · have ht : t.map (fun x => if x.id = e.id then e else x) = t := by
          refine (List.map_congr_left ?_).trans (List.map_id t)
          intro x hx
          rw [if_neg]
          · rfl
          · intro hc
            exact h.1 (hae ▸ hc ▸ List.mem_map_of_mem (fun y => y.id) hx)
        have hft : t.filter (fun x => decide (x.id = e.id)) = [] := by
          rw [List.filter_eq_nil_iff]
          intro x hx hc
          exact h.1 (hae ▸ (decide_eq_true_eq.mp hc) ▸
            List.mem_map_of_mem (fun y => y.id) hx)
        rw [List.map_cons, if_pos hae, List.filter_cons, ht, hft]
        simp
      · have hanyt : t.any (fun x => x.id = e.id) := by
          rcases List.any_eq_true.mp hany with ⟨x, hx, hxe⟩
          rcases List.mem_cons.mp hx with hxa | hxt
          · exact absurd (by simpa [hxa] using hxe) hae
          · exact List.any_eq_true.mpr ⟨x, hxt, hxe⟩
        rw [List.map_cons, if_neg hae, List.filter_cons,
          if_neg (by simpa using hae)]
        exact ih h.2 hanyt
  · rw [if_neg hany, List.filter_append]
    have h0 : idx.filter (fun x => x.id = e.id) = [] := by
      rw [List.filter_eq_nil_iff]
      intro x hx hc
      exact hany (List.any_eq_true.mpr ⟨x, hx, hc⟩)
    rw [h0, List.nil_append, List.filter_cons]
    simp

/-- Upserting preserves distinctness of ids. -/
theorem upsertEntry_ids_nodup (idx : VecIndex) (e : IndexEntry)
    (h : (idx.map (fun x => x.id)).Nodup) :
    ((upsertEntry idx e).map (fun x => x.id)).Nodup := by
  unfold upsertEntry
  by_cases hany : idx.any (fun x => x.id = e.id)
  · rw [if_pos hany, List.map_map]
    have : idx.map ((fun x => x.id) ∘ fun x => if x.id = e.id then e else x)
        = idx.map (fun x => x.id) := by
      apply List.map_congr_left
      intro x _
      by_cases hx : x.id = e.id
      · simp [Function.comp, hx]
      · simp [Function.comp, hx]
    rw [this]
    exact h
  · rw [if_neg hany, List.map_append]
    rw [List.nodup_append]
    refine ⟨h, List.nodup_singleton _, ?_⟩
    intro a ha hb
    rcases List.mem_map.mp ha with ⟨x, hx, hxa⟩
    rw [List.map_singleton, List.mem_singleton] at hb
    exact hany (List.any_eq_true.mpr ⟨x, hx, by simp [hxa, hb]⟩)

/-- An upsert grows the index by at most one entry. -/
theorem upsertEntry_length (idx : VecIndex) (e : IndexEntry) :
    (upsertEntry idx e).length ≤ idx.length + 1 := by
  unfold upsertEntry
  by_cases hany : idx.any (fun x => x.id = e.id)
  · rw [if_pos hany, List.length_map]
    omega
  · rw [if_neg hany, List.length_append]
    simp

/-- Every entry of an upserted index is an old entry or the new one. -/
theorem mem_upsertEntry (idx : VecIndex) (e : IndexEntry) :
    ∀ x ∈ upsertEntry idx e, x ∈ idx ∨ x = e := by
  intro x hx
  unfold upsertEntry at hx
  by_cases hany : idx.any (fun y => y.id = e.id)
  · rw [if_pos hany] at hx
    rcases List.mem_map.mp hx with ⟨y, hy, hyx⟩
    by_cases hye : y.id = e.id
    · right
      rw [if_pos hye] at hyx
      exact hyx.symm
    · left
      rw [if_neg hye] at hyx
      exact hyx ▸ hy
  · rw [if_neg hany] at hx
    rcases List.mem_append.mp hx with h | h
    · exact Or.inl h
    · exact Or.inr (List.mem_singleton.mp h)

/-- Every query match originates in an index entry: same id, its stored
metadata. -/
theorem queryIndex_provenance (sim : List ℚ → List ℚ → ℚ) (idx : VecIndex)
    (vec : List ℚ) (topK : Nat) (f : Option MetadataFilter) :
    ∀ m ∈ queryIndex sim idx vec topK f,
      ∃ e, e ∈ idx ∧ m.id = e.id ∧ m.metadata = some e.metadata := by
  intro m hm
  unfold queryIndex at hm
  have hm1 := List.mem_of_mem_take hm
  unfold sortByScoreDesc at hm1
  have hm2 := (List.perm_insertionSort
    (fun a b : QueryMatch => b.score.getD 0 ≤ a.score.getD 0) _).mem_iff.mp hm1
  rcases List.mem_map.mp hm2 with ⟨e, he, hem⟩
  exact ⟨e, (List.mem_filter.mp he).1, by rw [← hem], by rw [← hem]⟩

/-- The key of a merged-map entry is unchanged by the image-score update. -/
theorem findUpd_fst (im : List QueryMatch) (p : String × SearchResult) :
    (findUpd im p).1 = p.1 := by
  unfold findUpd
  cases hf : im.find? (fun m => m.id = p.1) with
  | some m => rfl
  | none => rfl

/-- The `CardRecord` that `getAllCards` builds from a match id and its
stored metadata. -/
def cardRecordOf (id : String) (md : CardMetadata) : CardRecord :=
  { id := id, player_name := md.player_name, year := md.year, brand := md.brand,
    psa_grade := md.psa_grade, cert_number := md.cert_number,
    set_name := if md.set_name = "" then none else some md.set_name,
    card_number := if md.card_number = "" then none else some md.card_number,
    image_path := md.image_path, text_embedding := [], image_embedding := [],
    created_at := md.created_at }

/-- `getAllCards` factored through `cardRecordOf`. -/
theorem getAllCards_eq (simT : List ℚ → List ℚ → ℚ) (st : EngineState) :
    getAllCards simT st
      = ((queryIndex simT st.textIndex (List.replicate 768 (0 : ℚ)) 100
          none).filter (fun m => m.metadata.isSome)).filterMap
        (fun m => m.metadata.map (fun md => cardRecordOf m.id md)) := rfl

/-- A `filterMap` that never drops is a `map`. -/
theorem filterMap_eq_map_of_some {α β : Type} (f : α → Option β) (g : α → β)
    (l : List α) (h : ∀ a ∈ l, f a = some (g a)) : l.filterMap f = l.map g := by
  induction l with
  | nil => rfl
  | cons a t ih =>
    rw [List.filterMap_cons, h a (List.mem_cons_self a t), List.map_cons,
      ih (fun x hx => h x (List.mem_cons_of_mem a hx))]

/-- The keys produced by a per-match entry builder are the match ids. -/
theorem keys_filterMap_of_id (f : QueryMatch → Option (String × SearchResult))
    (l : List QueryMatch) (hf : ∀ m ∈ l, ∃ v, f m = some (m.id, v)) :
    ((l.filterMap f).map (fun p => p.1)) = l.map (fun m => m.id) := by
  induction l with
  | nil => rfl
  | cons a t ih =>
    obtain ⟨v, hv⟩ := hf a (List.mem_cons_self a t)
    rw [List.filterMap_cons, hv, List.map_cons, List.map_cons,
      ih (fun x hx => hf x (List.mem_cons_of_mem a hx))]

/-- In a duplicate-free list at most one element equals any given value. -/
theorem count_le_one_of_nodup {α : Type} [DecidableEq α] (l : List α) (a : α)
    (h : l.Nodup) : l.countP (fun x => x = a) ≤ 1 := by
  have := List.nodup_iff_count_le_one.mp h a
  calc l.countP (fun x => x = a)
      = l.count a := by
        unfold List.count
        apply List.countP_congr
        intro x _
        simp [BEq.beq]
    _ ≤ 1 := this

/-- The merged map of `hybridSearch` has pairwise-distinct keys. -/
theorem merged_keys_nodup (tm im : List QueryMatch)
    (htmN : (tm.map (fun m => m.id)).Nodup)
    (himN : (im.map (fun m => m.id)).Nodup)
    (htmS : ∀ m ∈ tm, m.metadata.isSome = true)
    (himS : ∀ m ∈ im, m.metadata.isSome = true) :
    ((im.foldl imageMergeStep (tm.foldl textMergeStep [])).map
      (fun p => p.1)).Nodup := by
  rw [foldl_textMergeStep tm [] (fun m _ p hp => absurd hp (List.not_mem_nil p)) htmN,
    List.nil_append, foldl_imageMergeStep im _ himN himS, List.map_append]
  have hk1 : (((tm.filterMap textEntry).map (findUpd im)).map (fun p => p.1))
      = tm.map (fun m => m.id) := by
    rw [List.map_map]
    calc (tm.filterMap textEntry).map ((fun p : String × SearchResult => p.1) ∘ findUpd im)
        = (tm.filterMap textEntry).map (fun p => p.1) :=
          List.map_congr_left (fun p _ => findUpd_fst im p)
      _ = tm.map (fun m => m.id) := by
          apply keys_filterMap_of_id
          intro m hm
          obtain ⟨md, hmd⟩ := Option.isSome_iff_exists.mp (htmS m hm)
          exact ⟨⟨psaCardOfMetadata md, md.image_path, 0, m.score.getD 0, 0⟩, by
            unfold textEntry
            rw [hmd]
            rfl⟩
  have hk2 : (((im.filter (fun mi =>
        !((tm.filterMap textEntry).any (fun p => p.1 = mi.id)))).filterMap
        imageEntry).map (fun p => p.1))
      = (im.filter (fun mi =>
          !((tm.filterMap textEntry).any (fun p => p.1 = mi.id)))).map
          (fun m => m.id) := by
    apply keys_filterMap_of_id
    intro m hm
    obtain ⟨md, hmd⟩ := Option.isSome_iff_exists.mp
      (himS m (List.mem_of_mem_filter hm))
    exact ⟨⟨psaCardOfMetadata md, md.image_path, 0, 0, m.score.getD 0⟩, by
      unfold imageEntry
      rw [hmd]
      rfl⟩
  rw [hk1, hk2, List.nodup_append]
  refine ⟨htmN, ((List.filter_sublist im).map (fun m : QueryMatch => m.id)).nodup himN, ?_⟩
  intro a ha hb
  rcases List.mem_map.mp hb with ⟨mi, hmi, hmia⟩
  have hPmi := (List.mem_filter.mp hmi).2
  rcases List.mem_map.mp ha with ⟨mt, hmt, hmta⟩
  have hany : (tm.filterMap textEntry).any (fun p => p.1 = mi.id) = true := by
    rw [any_key_filterMap_textEntry tm mi.id htmS]
    exact List.any_eq_true.mpr ⟨mt, hmt, by simp [hmta, hmia]⟩
  simp [hany] at hPmi

/-- Every merged-map entry is keyed by a match id and carries the card and
image path rebuilt from that match's stored metadata. -/
theorem merged_mem (tm im : List QueryMatch)
    (htmN : (tm.map (fun m => m.id)).Nodup)
    (himN : (im.map (fun m => m.id)).Nodup)
    (htmS : ∀ m ∈ tm, m.metadata.isSome = true)
    (himS : ∀ m ∈ im, m.metadata.isSome = true) :
    ∀ p ∈ im.foldl imageMergeStep (tm.foldl textMergeStep []),
      ∃ m md, (m ∈ tm ∨ m ∈ im) ∧ m.metadata = some md ∧ p.1 = m.id ∧
        p.2.card = psaCardOfMetadata md ∧ p.2.image_path = md.image_path := by
  rw [foldl_textMergeStep tm [] (fun m _ p hp => absurd hp (List.not_mem_nil p)) htmN,
    List.nil_append, foldl_imageMergeStep im _ himN himS]
  intro p hp
  rcases List.mem_append.mp hp with hp1 | hp2
  · rcases List.mem_map.mp hp1 with ⟨q, hq, hqp⟩
    rcases List.mem_filterMap.mp hq with ⟨m, hm, hmq⟩
    unfold textEntry at hmq
    rcases Option.map_eq_some'.mp hmq with ⟨md, hmd, hqe⟩
    refine ⟨m, md, Or.inl hm, hmd, ?_, ?_, ?_⟩
    · rw [← hqp, findUpd_fst, ← hqe]
    · rw [← hqp, findUpd_snd im q (by rw [← hqe])]
      rw [← hqe]
    · rw [← hqp, findUpd_snd im q (by rw [← hqe])]
      rw [← hqe]
  · rcases List.mem_filterMap.mp hp2 with ⟨mi, hmi, hmip⟩
    unfold imageEntry at hmip
    rcases Option.map_eq_some'.mp hmip with ⟨md, hmd, hpe⟩
    refine ⟨mi, md, Or.inr (List.mem_of_mem_filter hmi), hmd, ?_, ?_, ?_⟩
    · rw [← hpe]
    · rw [← hpe]
    · rw [← hpe]

/-- If an id is held by exactly the entry `e` in the text index (and the
index fits under the hardcoded `topK` of 100), `getAllCards` returns
exactly one record with that id, built from `e`'s stored metadata. -/
theorem getAllCards_filter_of_unique (simT : List ℚ → List ℚ → ℚ)
    (st : EngineState) (e : IndexEntry)
    (hflt : st.textIndex.filter (fun x => x.id = e.id) = [e])
    (hlen : st.textIndex.length ≤ 100) :
    (getAllCards simT st).filter (fun r => r.id = e.id)
      = [cardRecordOf e.id e.metadata] := by
  rw [getAllCards_eq]
  rw [List.filter_eq_self.mpr
    (queryIndex_metadata_isSome simT st.textIndex (List.replicate 768 (0 : ℚ)) 100 none)]
  unfold queryIndex
  rw [show st.textIndex.filter (fun x => filterAccept none x.metadata) = st.textIndex
    from List.filter_eq_self.mpr (fun a _ => rfl)]
  have hlen3 : (sortByScoreDesc (st.textIndex.map (fun x =>
      (⟨x.id, some (simT (List.replicate 768 (0 : ℚ)) x.values), some x.metadata⟩ :
        QueryMatch)))).length ≤ 100 := by
    unfold sortByScoreDesc
    rw [(List.perm_insertionSort _ _).length_eq, List.length_map]
    exact hlen
  rw [List.take_of_length_le hlen3]
  have hperm : List.Perm (sortByScoreDesc (st.textIndex.map (fun x =>
      (⟨x.id, some (simT (List.replicate 768 (0 : ℚ)) x.values), some x.metadata⟩ :
        QueryMatch))))
      (st.textIndex.map (fun x =>
        (⟨x.id, some (simT (List.replicate 768 (0 : ℚ)) x.values), some x.metadata⟩ :
          QueryMatch))) := List.perm_insertionSort _ _
  have hperm2 := (hperm.filterMap
    (fun m => m.metadata.map (fun md => cardRecordOf m.id md))).filter
    (fun r => r.id = e.id)
  have hcompute : (((st.textIndex.map (fun x =>
      (⟨x.id, some (simT (List.replicate 768 (0 : ℚ)) x.values), some x.metadata⟩ :
        QueryMatch))).filterMap
      (fun m => m.metadata.map (fun md => cardRecordOf m.id md))).filter
      (fun r => r.id = e.id)) = [cardRecordOf e.id e.metadata] := by
    rw [List.filterMap_map]
    rw [filterMap_eq_map_of_some
      ((fun m : QueryMatch => Option.map (fun md => cardRecordOf m.id md) m.metadata) ∘
        fun x : IndexEntry =>
        (⟨x.id, some (simT (List.replicate 768 (0 : ℚ)) x.values), some x.metadata⟩ :
          QueryMatch))
      (fun x : IndexEntry => cardRecordOf x.id x.metadata) st.textIndex
      (fun x _ => rfl)]
    rw [List.filter_map]
    have hfc : st.textIndex.filter ((fun r : CardRecord => decide (r.id = e.id)) ∘
        (fun x : IndexEntry => cardRecordOf x.id x.metadata))
        = st.textIndex.filter (fun x => x.id = e.id) :=
      List.filter_congr (fun x _ => rfl)
    rw [hfc, hflt]
    rfl
  rw [hcompute] at hperm2
  exact List.perm_singleton.mp hperm2

/-- When every stored entry is keyed by its own certification number, at
most one search result can carry any given certification number. -/
theorem hybridSearch_countP_cert_le_one (simT simI : List ℚ → List ℚ → ℚ)
    (st : EngineState) (params : HybridSearchParams) (qt qi : List ℚ)
    (cert : String)
    (hT : (st.textIndex.map (fun e => e.id)).Nodup)
    (hI : (st.imageIndex.map (fun e => e.id)).Nodup)
    (hMT : ∀ e ∈ st.textIndex, e.metadata.cert_number = e.id)
    (hMI : ∀ e ∈ st.imageIndex, e.metadata.cert_number = e.id) :
    (hybridSearch simT simI st params qt qi).countP
      (fun r => r.card.cert_number = cert) ≤ 1 := by
  unfold hybridSearch
  dsimp only
  have htmS := queryIndex_metadata_isSome simT st.textIndex qt
    (jsOrNat params.top_k 10 * 2) (buildFilter params.filters)
  have himS := queryIndex_metadata_isSome simI st.imageIndex qi
    (jsOrNat params.top_k 10 * 2) (buildFilter params.filters)
  have htmN := queryIndex_ids_nodup simT st.textIndex qt
    (jsOrNat params.top_k 10 * 2) (buildFilter params.filters) hT
  have himN := queryIndex_ids_nodup simI st.imageIndex qi
    (jsOrNat params.top_k 10 * 2) (buildFilter params.filters) hI
  set tm := queryIndex simT st.textIndex qt
    (jsOrNat params.top_k 10 * 2) (buildFilter params.filters) with htm
  set im := queryIndex simI st.imageIndex qi
    (jsOrNat params.top_k 10 * 2) (buildFilter params.filters) with him
  have hkey : ∀ p ∈ im.foldl imageMergeStep (tm.foldl textMergeStep []),
      p.2.card.cert_number = p.1 := by
    intro p hp
    obtain ⟨m, md, hmor, hmd, hpid, hcard, _⟩ :=
      merged_mem tm im htmN himN htmS himS p hp
    rcases hmor with hmT | hmI
    · obtain ⟨e, he, hide, hmde⟩ := queryIndex_provenance simT st.textIndex qt
        (jsOrNat params.top_k 10 * 2) (buildFilter params.filters) m hmT
      have hmdmd : md = e.metadata := Option.some.inj (hmd.symm.trans hmde)
      rw [hcard, hmdmd, hpid, hide]
      exact hMT e he
    · obtain ⟨e, he, hide, hmde⟩ := queryIndex_provenance simI st.imageIndex qi
        (jsOrNat params.top_k 10 * 2) (buildFilter params.filters) m hmI
      have hmdmd : md = e.metadata := Option.some.inj (hmd.symm.trans hmde)
      rw [hcard, hmdmd, hpid, hide]
      exact hMI e he
  refine le_trans (List.Sublist.countP_le _ (List.take_sublist _ _)) ?_
  unfold sortBySimilarityDesc
  rw [(List.perm_insertionSort _ _).countP_eq]
  rw [List.countP_map, List.countP_map]
  have h1 : (im.foldl imageMergeStep (tm.foldl textMergeStep [])).countP
      (fun p => decide (p.1 = cert))
      = ((im.foldl imageMergeStep (tm.foldl textMergeStep [])).map
          (fun p => p.1)).countP (fun x => decide (x = cert)) :=
    (List.countP_map (fun x : String => decide (x = cert))
      (fun p : String × SearchResult => p.1)
      (im.foldl imageMergeStep (tm.foldl textMergeStep []))).symm
  have hc : (im.foldl imageMergeStep (tm.foldl textMergeStep [])).countP
      (fun p => decide (p.1 = cert)) ≤ 1 :=
    le_trans (le_of_eq h1)
      (count_le_one_of_nodup _ cert (merged_keys_nodup tm im htmN himN htmS himS))
  refine le_trans (le_of_eq (List.countP_congr ?_)) hc
  intro p hp
  show (decide (p.2.card.cert_number = cert) = true ↔ decide (p.1 = cert) = true)
  rw [hkey p hp]

/-- If a certification number is held by exactly one entry in each index
(with identical stored metadata), any search result carrying it is built
from that metadata. -/
theorem hybridSearch_mem_cert (simT simI : List ℚ → List ℚ → ℚ)
    (st : EngineState) (params : HybridSearchParams) (qt qi : List ℚ)
    (cert : String) (et ei : IndexEntry)
    (hT : (st.textIndex.map (fun e => e.id)).Nodup)
    (hI : (st.imageIndex.map (fun e => e.id)).Nodup)
    (hMT : ∀ e ∈ st.textIndex, e.metadata.cert_number = e.id)
    (hMI : ∀ e ∈ st.imageIndex, e.metadata.cert_number = e.id)
    (hfT : st.textIndex.filter (fun x => x.id = cert) = [et])
    (hfI : st.imageIndex.filter (fun x => x.id = cert) = [ei])
    (hmm : ei.metadata = et.metadata) :
    ∀ r ∈ hybridSearch simT simI st params qt qi,
      r.card.cert_number = cert →
        r.card = psaCardOfMetadata et.metadata ∧
        r.image_path = et.metadata.image_path := by
  have htmS := queryIndex_metadata_isSome simT st.textIndex qt
    (jsOrNat params.top_k 10 * 2) (buildFilter params.filters)
  have himS := queryIndex_metadata_isSome simI st.imageIndex qi
    (jsOrNat params.top_k 10 * 2) (buildFilter params.filters)
  have htmN := queryIndex_ids_nodup simT st.textIndex qt
    (jsOrNat params.top_k 10 * 2) (buildFilter params.filters) hT
  have himN := queryIndex_ids_nodup simI st.imageIndex qi
    (jsOrNat params.top_k 10 * 2) (buildFilter params.filters) hI
  intro r hr hcert
  unfold hybridSearch at hr
  dsimp only at hr
  set tm := queryIndex simT st.textIndex qt
    (jsOrNat params.top_k 10 * 2) (buildFilter params.filters) with htm
  set im := queryIndex simI st.imageIndex qi
    (jsOrNat params.top_k 10 * 2) (buildFilter params.filters) with him
  have hr1 := List.mem_of_mem_take hr
  unfold sortBySimilarityDesc at hr1
  have hr2 := (List.perm_insertionSort
    (fun a b : SearchResult => b.similarity_score ≤ a.similarity_score) _).mem_iff.mp hr1
  rcases List.mem_map.mp hr2 with ⟨s, hs, hsr⟩
  rcases List.mem_map.mp hs with ⟨p, hp, hps⟩
  obtain ⟨m, md, hmor, hmd, hpid, hcard, hpath⟩ :=
    merged_mem tm im htmN himN htmS himS p hp
  have hrcard : r.card = psaCardOfMetadata md := by
    rw [← hsr]
    show s.card = psaCardOfMetadata md
    rw [← hps]
    exact hcard
  have hrpath : r.image_path = md.image_path := by
    rw [← hsr]
    show s.image_path = md.image_path
    rw [← hps]
    exact hpath
  have hmdc : md.cert_number = cert := by
    rw [hrcard] at hcert
    exact hcert
  rcases hmor with hmT | hmI
  · obtain ⟨e, he, _, hmde⟩ := queryIndex_provenance simT st.textIndex qt
      (jsOrNat params.top_k 10 * 2) (buildFilter params.filters) m hmT
    have hmdmd : md = e.metadata := Option.some.inj (hmd.symm.trans hmde)
    have heid : e.id = cert := by
      rw [← hMT e he, ← hmdmd]
      exact hmdc
    have hefe : e ∈ st.textIndex.filter (fun x => x.id = cert) :=
      List.mem_filter.mpr ⟨he, by simp [heid]⟩
    rw [hfT] at hefe
    have he2 : e = et := List.mem_singleton.mp hefe
    have hmd2 : md = et.metadata := by rw [hmdmd, he2]
    exact ⟨by rw [hrcard, hmd2], by rw [hrpath, hmd2]⟩
  · obtain ⟨e, he, _, hmde⟩ := queryIndex_provenance simI st.imageIndex qi
      (jsOrNat params.top_k 10 * 2) (buildFilter params.filters) m hmI
    have hmdmd : md = e.metadata := Option.some.inj (hmd.symm.trans hmde)
    have heid : e.id = cert := by
      rw [← hMI e he, ← hmdmd]
      exact hmdc
    have hefe : e ∈ st.imageIndex.filter (fun x => x.id = cert) :=
      List.mem_filter.mpr ⟨he, by simp [heid]⟩
    rw [hfI] at hefe
    have he2 : e = ei := List.mem_singleton.mp hefe
    have hmd2 : md = et.metadata := by rw [hmdmd, he2, hmm]
    exact ⟨by rw [hrcard, hmd2], by rw [hrpath, hmd2]⟩

/-- C5. Storing a record whose certification number already exists in the
engine overwrites the existing entry in both indexes rather than
duplicating it: after `store` runs twice with the same identifier but
different attributes (over a well-formed store: distinct ids, each entry
keyed by its own certification number, and — for the `listAll` part —
small enough to fit its hardcoded 100-result window), each index holds
exactly one entry under that id, namely the second call's; `getAllCards`
returns exactly one record with that id, built from the second call's
attributes; and `hybridSearch` yields at most one result carrying that
certification number, whose card and image path are the second call's. -/
theorem storeCard_twice_upserts
    (c1 c2 : PSACard) (p1 p2 : String) (t1 i1 t2 i2 : List ℚ)
    (ts1 ts2 : String) (st0 : EngineState)
    (simT simI : List ℚ → List ℚ → ℚ) (params : HybridSearchParams)
    (qt qi : List ℚ)
    (hid : c1.cert_number = c2.cert_number)
    (hT : (st0.textIndex.map (fun e => e.id)).Nodup)
    (hI : (st0.imageIndex.map (fun e => e.id)).Nodup)
    (hMT : ∀ e ∈ st0.textIndex, e.metadata.cert_number = e.id)
    (hMI : ∀ e ∈ st0.imageIndex, e.metadata.cert_number = e.id)
    (hlen : st0.textIndex.length ≤ 98) :
    ∀ st2, st2 = storeCard c2 p2 t2 i2 ts2 (storeCard c1 p1 t1 i1 ts1 st0) →
      st2.textIndex.filter (fun e => e.id = c2.cert_number)
          = [⟨c2.cert_number, t2, cardMetadataOf c2 p2 ts2⟩] ∧
      st2.imageIndex.filter (fun e => e.id = c2.cert_number)
          = [⟨c2.cert_number, i2, cardMetadataOf c2 p2 ts2⟩] ∧
      (getAllCards simT st2).filter (fun r => r.id = c2.cert_number)
          = [cardRecordOf c2.cert_number (cardMetadataOf c2 p2 ts2)] ∧
      (hybridSearch simT simI st2 params qt qi).countP
          (fun r => r.card.cert_number = c2.cert_number) ≤ 1 ∧
      ∀ r ∈ hybridSearch simT simI st2 params qt qi,
        r.card.cert_number = c2.cert_number →
          r.card = psaCardOfMetadata (cardMetadataOf c2 p2 ts2) ∧
          r.image_path = p2 := by
  intro st2 hst2
  have hT1 : ((storeCard c1 p1 t1 i1 ts1 st0).textIndex.map (fun e => e.id)).Nodup :=
    upsertEntry_ids_nodup st0.textIndex ⟨c1.cert_number, t1, cardMetadataOf c1 p1 ts1⟩ hT
  have hI1 : ((storeCard c1 p1 t1 i1 ts1 st0).imageIndex.map (fun e => e.id)).Nodup :=
    upsertEntry_ids_nodup st0.imageIndex ⟨c1.cert_number, i1, cardMetadataOf c1 p1 ts1⟩ hI
  have hT2 : (st2.textIndex.map (fun e => e.id)).Nodup := by
    rw [hst2]
    exact upsertEntry_ids_nodup _ _ hT1
  have hI2 : (st2.imageIndex.map (fun e => e.id)).Nodup := by
    rw [hst2]
    exact upsertEntry_ids_nodup _ _ hI1
  have hPiT : st2.textIndex.filter (fun e => e.id = c2.cert_number)
      = [⟨c2.cert_number, t2, cardMetadataOf c2 p2 ts2⟩] := by
    rw [hst2]
    exact upsertEntry_filter_self (storeCard c1 p1 t1 i1 ts1 st0).textIndex
      ⟨c2.cert_number, t2, cardMetadataOf c2 p2 ts2⟩ hT1
  have hPiI : st2.imageIndex.filter (fun e => e.id = c2.cert_number)
      = [⟨c2.cert_number, i2, cardMetadataOf c2 p2 ts2⟩] := by
    rw [hst2]
    exact upsertEntry_filter_self (storeCard c1 p1 t1 i1 ts1 st0).imageIndex
      ⟨c2.cert_number, i2, cardMetadataOf c2 p2 ts2⟩ hI1
  have hMT2 : ∀ e ∈ st2.textIndex, e.metadata.cert_number = e.id := by
    intro e he
    rw [hst2] at he
    rcases mem_upsertEntry _ _ e he with h1 | h1
    · rcases mem_upsertEntry _ _ e h1 with h0 | h0
      · exact hMT e h0
      · rw [h0]
        rfl
    · rw [h1]
      rfl
  have hMI2 : ∀ e ∈ st2.imageIndex, e.metadata.cert_number = e.id := by
    intro e he
    rw [hst2] at he
    rcases mem_upsertEntry _ _ e he with h1 | h1
    · rcases mem_upsertEntry _ _ e h1 with h0 | h0
      · exact hMI e h0
      · rw [h0]
        rfl
    · rw [h1]
      rfl
  have hlen2 : st2.textIndex.length ≤ 100 := by
    have l1 : (storeCard c1 p1 t1 i1 ts1 st0).textIndex.length
        ≤ st0.textIndex.length + 1 :=
      upsertEntry_length st0.textIndex ⟨c1.cert_number, t1, cardMetadataOf c1 p1 ts1⟩
    have l2 : st2.textIndex.length
        ≤ (storeCard c1 p1 t1 i1 ts1 st0).textIndex.length + 1 := by
      rw [hst2]
      exact upsertEntry_length _ _
    omega
  refine ⟨hPiT, hPiI, ?_, ?_, ?_⟩
  · exact getAllCards_filter_of_unique simT st2
      ⟨c2.cert_number, t2, cardMetadataOf c2 p2 ts2⟩ hPiT hlen2
  · exact hybridSearch_countP_cert_le_one simT simI st2 params qt qi
      c2.cert_number hT2 hI2 hMT2 hMI2
  · intro r hr hc
    exact hybridSearch_mem_cert simT simI st2 params qt qi c2.cert_number
      ⟨c2.cert_number, t2, cardMetadataOf c2 p2 ts2⟩
      ⟨c2.cert_number, i2, cardMetadataOf c2 p2 ts2⟩
      hT2 hI2 hMT2 hMI2 hPiT hPiI rfl r hr hc

/-- Two cards with the same certification number but different grade and
set name. -/
def c5CardA : PSACard :=
  { player_name := "LeBron James", year := "2003-04", brand := "Topps",
    psa_grade := 9, cert_number := "777", set_name := none, card_number := none }

def c5CardB : PSACard :=
  { player_name := "LeBron James", year := "2003-04", brand := "Topps",
    psa_grade := 10, cert_number := "777", set_name := some "Topps Chrome",
    card_number := none }

/-- Witness: the upsert theorem applied to two stores of cert `"777"` on
the empty engine — `getAllCards` then lists exactly the second call's
record for that id. -/
theorem storeCard_twice_upserts_witness :
    (c5CardA.cert_number = c5CardB.cert_number ∧
      ((⟨[], []⟩ : EngineState).textIndex.map (fun e => e.id)).Nodup ∧
      (⟨[], []⟩ : EngineState).textIndex.length ≤ 98) ∧
    (getAllCards headSim (storeCard c5CardB "b.png" [2] [3] "t2"
        (storeCard c5CardA "a.png" [0] [1] "t1" ⟨[], []⟩))).filter
      (fun r => r.id = c5CardB.cert_number)
      = [cardRecordOf c5CardB.cert_number (cardMetadataOf c5CardB "b.png" "t2")] :=
  ⟨⟨rfl, by decide, by decide⟩,
   (storeCard_twice_upserts c5CardA c5CardB "a.png" "b.png" [0] [1] [2] [3]
      "t1" "t2" ⟨[], []⟩ headSim headSim ⟨some 2, some 1, some 1, none⟩ [] []
      rfl (by decide) (by decide)
      (fun e he => absurd he (List.not_mem_nil e))
      (fun e he => absurd he (List.not_mem_nil e))
      (by decide)
      (storeCard c5CardB "b.png" [2] [3] "t2"
        (storeCard c5CardA "a.png" [0] [1] "t1" ⟨[], []⟩)) rfl).2.2.1⟩
